import Mathlib

/-! Verification development for `model.py`: a shallow embedding of the
convolutional network variants defined in that file (`Model`,
`session_6_Model`, `Session_7_Model_1`, `Session_7_Model_2`,
`Session_7_Model_3`) together with the helper `normalizer` and the
module-level constant `NUM_GROUPS`.

Tensors are modelled as 4-dimensional real arrays; a 2-D tensor `(M, 10)`
(the result of `x.view(-1, 10)`) is encoded with trailing spatial
dimensions `1, 1`.  The external library's layers are modelled in
evaluation mode (`nn.Dropout` is the identity, `nn.BatchNorm2d` uses its
running statistics).  Run-time shape errors raised by the library's
layer applications are modelled by `Option.none`; exceptions raised at
construction time — the interpreter's `NameError` for an unbound name,
the `ValueError` raised by this file's `normalizer`, and the
`ValueError` raised inside the library's `nn.GroupNorm.__init__` when
`num_channels` is not divisible by `num_groups` — are modelled by the
`Except PyError` channel of the constructors, with provenance recorded
in the `PyError` constructor. -/

namespace ModelPy

/-- Tensor element dtypes relevant to the file: parameters created by the
constructors are float32; inputs may in principle be float64. -/
inductive DType where
  | float32
  | float64
deriving DecidableEq

/-- A 4-D tensor `(n, c, h, w)` with a total data function; entries outside
the index range are irrelevant (layer outputs normalise them to `0`). -/
structure Tensor4 where
  n : ℕ
  c : ℕ
  h : ℕ
  w : ℕ
  dtype : DType
  data : ℕ → ℕ → ℕ → ℕ → ℝ

/-- The shape-and-dtype signature of a tensor. -/
def Sig : Type := (ℕ × ℕ × ℕ × ℕ) × DType

instance : DecidableEq Sig := by
  unfold Sig
  infer_instance

/-- Signature of a tensor: `((n, c, h, w), dtype)`. -/
def Tensor4.sig (t : Tensor4) : Sig := ((t.n, t.c, t.h, t.w), t.dtype)

/-- Restrict a data function to the index box `(n, c, h, w)`, zero outside. -/
def guard4 (n c h w : ℕ) (f : ℕ → ℕ → ℕ → ℕ → ℝ) : ℕ → ℕ → ℕ → ℕ → ℝ :=
  fun nn cc i j => if nn < n ∧ cc < c ∧ i < h ∧ j < w then f nn cc i j else 0

/-- Read tensor `x` at spatial position `(u, v)` of its zero-padded
extension by `pad` on every border (channel `cc`, sample `nn`). -/
def Tensor4.padAt (x : Tensor4) (pad nn cc u v : ℕ) : ℝ :=
  if pad ≤ u ∧ u < x.h + pad ∧ pad ≤ v ∧ v < x.w + pad then
    x.data nn cc (u - pad) (v - pad)
  else 0

/-- Maximum of `f` over `{0, ..., k-1}` (used by max-pooling). -/
noncomputable def rangeMax (f : ℕ → ℝ) (k : ℕ) : ℝ :=
  (List.range k).foldl (fun m b => max m (f b)) (f 0)

/-- Maximum of `f` over the `k × k` window (used by `nn.MaxPool2d`). -/
noncomputable def poolMax (f : ℕ → ℕ → ℝ) (k : ℕ) : ℝ :=
  rangeMax (fun a => rangeMax (f a) k) k

/-- Default `eps` of `nn.BatchNorm2d` and `nn.GroupNorm` (`1e-5`). -/
noncomputable def normEps : ℝ := 1 / 100000

/-- One layer of the external library, as instantiated by `model.py`:
`nn.Conv2d` (bias-free, as everywhere in the file), `nn.BatchNorm2d`,
`nn.GroupNorm`, `nn.ReLU`, `nn.Dropout`, `nn.MaxPool2d`, `nn.AvgPool2d`,
`nn.AdaptiveAvgPool2d(1)`, plus the two tensor operations performed inside
the `forward` methods: `x.view(-1, 10)` and `F.log_softmax` along the
class dimension. -/
inductive LayerSpec where
  | conv (inC outC kh kw pad : ℕ)
  | batchNorm (C : ℕ)
  | groupNorm (g C : ℕ)
  | relu
  | dropout (p : ℚ)
  | maxPool (k s : ℕ)
  | avgPool (k : ℕ)
  | adaptiveAvgPool1
  | view10
  | logSoftmaxDim1
deriving DecidableEq

/-- Number of learnable/buffer scalars a layer owns inside the flat
parameter vector: a conv layer owns its `outC × inC × kh × kw` kernel,
`nn.BatchNorm2d(C)` owns weight, bias, running mean and running var
(`4 C` scalars), `nn.GroupNorm(g, C)` owns weight and bias (`2 C`). -/
def LayerSpec.paramCount : LayerSpec → ℕ
  | .conv inC outC kh kw _ => outC * inC * kh * kw
  | .batchNorm C => 4 * C
  | .groupNorm _ C => 2 * C
  | _ => 0

/-- Numeric semantics of a single layer in evaluation mode, reading its
parameters from the flat vector `θ`; `none` models a shape/configuration
error raised by the external library. -/
noncomputable def LayerSpec.apply : LayerSpec → (ℕ → ℝ) → Tensor4 → Option Tensor4
  | .conv inC outC kh kw pad, θ, x =>
      if x.dtype = DType.float32 ∧ x.c = inC ∧
          kh ≤ x.h + 2 * pad ∧ kw ≤ x.w + 2 * pad then
        some ⟨x.n, outC, x.h + 2 * pad + 1 - kh, x.w + 2 * pad + 1 - kw,
          DType.float32,
          guard4 x.n outC (x.h + 2 * pad + 1 - kh) (x.w + 2 * pad + 1 - kw)
            (fun nn o i j =>
              ∑ ci ∈ Finset.range inC, ∑ a ∈ Finset.range kh,
                ∑ b ∈ Finset.range kw,
                  θ (((o * inC + ci) * kh + a) * kw + b) *
                    x.padAt pad nn ci (i + a) (j + b))⟩
      else none
  | .batchNorm C, θ, x =>
      if x.dtype = DType.float32 ∧ x.c = C then
        some ⟨x.n, x.c, x.h, x.w, x.dtype,
          guard4 x.n x.c x.h x.w (fun nn cc i j =>
            θ cc * ((x.data nn cc i j - θ (2 * C + cc)) /
              Real.sqrt (θ (3 * C + cc) + normEps)) + θ (C + cc))⟩
      else none
  | .groupNorm g C, θ, x =>
      if x.dtype = DType.float32 ∧ x.c = C ∧ 0 < g ∧ C % g = 0 then
        some ⟨x.n, x.c, x.h, x.w, x.dtype,
          guard4 x.n x.c x.h x.w (fun nn cc i j =>
            let gs := C / g
            let grp := cc / gs
            let cnt : ℝ := (gs * x.h * x.w : ℕ)
            let mean := (∑ c' ∈ Finset.range gs, ∑ i' ∈ Finset.range x.h,
              ∑ j' ∈ Finset.range x.w, x.data nn (grp * gs + c') i' j') / cnt
            let varb := (∑ c' ∈ Finset.range gs, ∑ i' ∈ Finset.range x.h,
              ∑ j' ∈ Finset.range x.w,
                (x.data nn (grp * gs + c') i' j' - mean) ^ 2) / cnt
            θ cc * ((x.data nn cc i j - mean) / Real.sqrt (varb + normEps)) +
              θ (C + cc))⟩
      else none
  | .relu, _, x =>
      some ⟨x.n, x.c, x.h, x.w, x.dtype,
        fun nn cc i j => max (x.data nn cc i j) 0⟩
  | .dropout _, _, x => some x
  | .maxPool k s, _, x =>
      if 0 < k ∧ 0 < s ∧ k ≤ x.h ∧ k ≤ x.w then
        some ⟨x.n, x.c, (x.h - k) / s + 1, (x.w - k) / s + 1, x.dtype,
          fun nn cc i j =>
            poolMax (fun a b => x.data nn cc (i * s + a) (j * s + b)) k⟩
      else none
  | .avgPool k, _, x =>
      if 0 < k ∧ k ≤ x.h ∧ k ≤ x.w then
        some ⟨x.n, x.c, (x.h - k) / k + 1, (x.w - k) / k + 1, x.dtype,
          fun nn cc i j =>
            (∑ a ∈ Finset.range k, ∑ b ∈ Finset.range k,
              x.data nn cc (i * k + a) (j * k + b)) / ((k * k : ℕ) : ℝ)⟩
      else none
  | .adaptiveAvgPool1, _, x =>
      if 0 < x.h ∧ 0 < x.w then
        some ⟨x.n, x.c, 1, 1, x.dtype,
          fun nn cc _ _ =>
            (∑ i' ∈ Finset.range x.h, ∑ j' ∈ Finset.range x.w,
              x.data nn cc i' j') / ((x.h * x.w : ℕ) : ℝ)⟩
      else none
  | .view10, _, x =>
      if 10 ∣ x.n * x.c * x.h * x.w then
        some ⟨x.n * x.c * x.h * x.w / 10, 10, 1, 1, x.dtype,
          guard4 (x.n * x.c * x.h * x.w / 10) 10 1 1 (fun nn cc _ _ =>
            let i := nn * 10 + cc
            x.data (i / (x.c * x.h * x.w)) (i % (x.c * x.h * x.w) / (x.h * x.w))
              (i % (x.h * x.w) / x.w) (i % x.w))⟩
      else none
  | .logSoftmaxDim1, _, x =>
      some ⟨x.n, x.c, x.h, x.w, x.dtype,
        fun nn cc i j =>
          x.data nn cc i j -
            Real.log (∑ c' ∈ Finset.range x.c, Real.exp (x.data nn c' i j))⟩

/-- Shape/dtype semantics of a single layer; mirrors the success
conditions and output signature of `LayerSpec.apply` exactly. -/
def sigSpec : LayerSpec → Sig → Option Sig
  | .conv inC outC kh kw pad, ((n, c, h, w), dt) =>
      if dt = DType.float32 ∧ c = inC ∧
          kh ≤ h + 2 * pad ∧ kw ≤ w + 2 * pad then
        some ((n, outC, h + 2 * pad + 1 - kh, w + 2 * pad + 1 - kw),
          DType.float32)
      else none
  | .batchNorm C, ((n, c, h, w), dt) =>
      if dt = DType.float32 ∧ c = C then some ((n, c, h, w), dt) else none
  | .groupNorm g C, ((n, c, h, w), dt) =>
      if dt = DType.float32 ∧ c = C ∧ 0 < g ∧ C % g = 0 then
        some ((n, c, h, w), dt)
      else none
  | .relu, s => some s
  | .dropout _, s => some s
  | .maxPool k s, ((n, c, h, w), dt) =>
      if 0 < k ∧ 0 < s ∧ k ≤ h ∧ k ≤ w then
        some ((n, c, (h - k) / s + 1, (w - k) / s + 1), dt)
      else none
  | .avgPool k, ((n, c, h, w), dt) =>
      if 0 < k ∧ k ≤ h ∧ k ≤ w then
        some ((n, c, (h - k) / k + 1, (w - k) / k + 1), dt)
      else none
  | .adaptiveAvgPool1, ((n, c, h, w), dt) =>
      if 0 < h ∧ 0 < w then some ((n, c, 1, 1), dt) else none
  | .view10, ((n, c, h, w), dt) =>
      if 10 ∣ n * c * h * w then some ((n * c * h * w / 10, 10, 1, 1), dt)
      else none
  | .logSoftmaxDim1, s => some s

/-- Shift a flat parameter vector past the first `k` scalars. -/
def shiftP (θ : ℕ → ℝ) (k : ℕ) : ℕ → ℝ := fun i => θ (i + k)

/-- Run a straight-line sequence of layers, each consuming its own slice
of the flat parameter vector. -/
noncomputable def runNet : List LayerSpec → (ℕ → ℝ) → Tensor4 → Option Tensor4
  | [], _, x => some x
  | s :: rest, θ, x =>
      (s.apply θ x).bind (runNet rest (shiftP θ s.paramCount))

/-- Shape/dtype run of a sequence of layers. -/
def runNetSig : List LayerSpec → Sig → Option Sig
  | [], s => some s
  | l :: rest, s => (sigSpec l s).bind (runNetSig rest)

/-- Total number of parameter scalars owned by a sequence of layers. -/
def netParamCount (specs : List LayerSpec) : ℕ :=
  (specs.map LayerSpec.paramCount).sum

/-- Errors raised at construction time through Python's exception
channel, with their provenance kept apart: `nameError` is the
interpreter's `NameError` for an unbound name (a failure of this file's
own code), `valueError` is a `ValueError` raised explicitly by this
file's code (`normalizer`'s fall-through branch), and `libValueError` is
a `ValueError` raised inside an external-library constructor
(`nn.GroupNorm.__init__`'s divisibility check).  Run-time shape failures
inside the library's `forward` calls are modelled separately, as
`Option.none` in `LayerSpec.apply`. -/
inductive PyError where
  | nameError (name : String)
  | valueError (msg : String)
  | libValueError (msg : String)
deriving DecidableEq

/-- `NUM_GROUPS: int = 8` (module-level constant of `model.py`). -/
def NUM_GROUPS : ℕ := 8

/-- The `NormalizationMethod` enumeration (`BATCH = 1`, `LAYER = 2`,
`GROUP = 3`). -/
inductive NormalizationMethod where
  | BATCH
  | LAYER
  | GROUP
deriving DecidableEq

/-- The module-level binding for the name `dropout_value`: `model.py`
defines no such name anywhere, so the binding is absent and every read of
it raises `NameError` at run time. -/
def dropout_value : Option ℚ := none

/-- Python name lookup: yields the bound value, or raises `NameError` for
an absent binding. -/
def pyName (name : String) (binding : Option ℚ) : Except PyError ℚ :=
  match binding with
  | some v => Except.ok v
  | none => Except.error (PyError.nameError name)

/-- `nn.GroupNorm(num_groups, num_channels)` as run by Python: the
library constructor raises
`ValueError("num_channels must be divisible by num_groups")` when the
divisibility check fails, and otherwise returns the module. -/
def GroupNorm_init (g C : ℕ) : Except PyError LayerSpec :=
  if C % g = 0 then Except.ok (LayerSpec.groupNorm g C)
  else Except.error
    (PyError.libValueError "num_channels must be divisible by num_groups")

/-- The `normalizer` helper of `model.py`, including its
`raise ValueError("Invalid NormalizationMethod")` fall-through branch;
the `LAYER` and `GROUP` branches call `nn.GroupNorm`, whose constructor
performs the divisibility check. -/
def normalizer (method : NormalizationMethod) (out_channels : ℕ) :
    Except PyError LayerSpec :=
  if method = NormalizationMethod.BATCH then
    Except.ok (LayerSpec.batchNorm out_channels)
  else if method = NormalizationMethod.LAYER then
    GroupNorm_init 1 out_channels
  else if method = NormalizationMethod.GROUP then
    GroupNorm_init NUM_GROUPS out_channels
  else Except.error (PyError.valueError "Invalid NormalizationMethod")

/-- The normalization module produced by `normalizer` on each
`NormalizationMethod` value (total companion of `normalizer`). -/
def normalizerSpec (method : NormalizationMethod) (outC : ℕ) : LayerSpec :=
  match method with
  | NormalizationMethod.BATCH => LayerSpec.batchNorm outC
  | NormalizationMethod.LAYER => LayerSpec.groupNorm 1 outC
  | NormalizationMethod.GROUP => LayerSpec.groupNorm NUM_GROUPS outC

/-- The `ConvLayer` module: `Conv2d(3x3, pad, bias=False)`, the normalizer,
`ReLU`, `Dropout(0.05)`. -/
def ConvLayer (inC outC pad : ℕ) (nm : NormalizationMethod) :
    List LayerSpec :=
  [LayerSpec.conv inC outC 3 3 pad, normalizerSpec nm outC,
    LayerSpec.relu, LayerSpec.dropout (5 / 100)]

/-- The `ConvLayer` constructor as run by Python: it calls `normalizer`,
which can in principle raise. -/
def ConvLayer_init (inC outC pad : ℕ) (nm : NormalizationMethod) :
    Except PyError (List LayerSpec) := do
  let nrm ← normalizer nm outC
  pure [LayerSpec.conv inC outC 3 3 pad, nrm,
    LayerSpec.relu, LayerSpec.dropout (5 / 100)]

/-- The `TransBlock` module: `Conv2d(1x1, bias=False)` then
`MaxPool2d((2,2), stride=2)`. -/
def TransBlock (inC outC : ℕ) : List LayerSpec :=
  [LayerSpec.conv inC outC 1 1 0, LayerSpec.maxPool 2 2]

/-- `Model.conv_block1`: ConvLayer 3→16 then ConvLayer 16→32, padding 1. -/
def Model_conv_block1 (nm : NormalizationMethod) : List LayerSpec :=
  ConvLayer 3 16 1 nm ++ ConvLayer 16 32 1 nm

/-- `Model.trans_block1`: TransBlock 32→16. -/
def Model_trans_block1 : List LayerSpec := TransBlock 32 16

/-- `Model.conv_block2`: ConvLayers 16→16, 16→16, 16→32, padding 1. -/
def Model_conv_block2 (nm : NormalizationMethod) : List LayerSpec :=
  ConvLayer 16 16 1 nm ++ ConvLayer 16 16 1 nm ++ ConvLayer 16 32 1 nm

/-- `Model.trans_block2`: TransBlock 32→16. -/
def Model_trans_block2 : List LayerSpec := TransBlock 32 16

/-- `Model.conv_block3`: ConvLayers 16→16, 16→16, 16→32, padding 1. -/
def Model_conv_block3 (nm : NormalizationMethod) : List LayerSpec :=
  ConvLayer 16 16 1 nm ++ ConvLayer 16 16 1 nm ++ ConvLayer 16 32 1 nm

/-- `Model.trans_block3`: TransBlock 32→16. -/
def Model_trans_block3 : List LayerSpec := TransBlock 32 16

/-- `Model.gap = nn.AdaptiveAvgPool2d(1)`. -/
def Model_gap : List LayerSpec := [LayerSpec.adaptiveAvgPool1]

/-- `Model.out = nn.Conv2d(16, 10, (1,1), bias=False)`. -/
def Model_out : List LayerSpec := [LayerSpec.conv 16 10 1 1 0]

/-- All layer blocks of `Model` in declaration order (the `forward` body
additionally applies `view(-1, 10)` and `log_softmax(dim=1)`). -/
def Model_blocks (nm : NormalizationMethod) : List LayerSpec :=
  Model_conv_block1 nm ++ Model_trans_block1 ++ Model_conv_block2 nm ++
    Model_trans_block2 ++ Model_conv_block3 nm ++ Model_trans_block3 ++
    Model_gap ++ Model_out

/-- `Model.__init__` as run by Python: builds the eight ConvLayers through
`normalizer` (which can in principle raise), then the TransBlocks, gap and
out conv. -/
def Model_init (nm : NormalizationMethod) : Except PyError (List LayerSpec) := do
  let b1a ← ConvLayer_init 3 16 1 nm
  let b1b ← ConvLayer_init 16 32 1 nm
  let b2a ← ConvLayer_init 16 16 1 nm
  let b2b ← ConvLayer_init 16 16 1 nm
  let b2c ← ConvLayer_init 16 32 1 nm
  let b3a ← ConvLayer_init 16 16 1 nm
  let b3b ← ConvLayer_init 16 16 1 nm
  let b3c ← ConvLayer_init 16 32 1 nm
  pure (b1a ++ b1b ++ TransBlock 32 16 ++ b2a ++ b2b ++ b2c ++
    TransBlock 32 16 ++ b3a ++ b3b ++ b3c ++ TransBlock 32 16 ++
    Model_gap ++ Model_out)

/-- `Model.forward`: the straight-line chain of the declared blocks, then
`x.view(-1, 10)` and `F.log_softmax(x, dim=1)`. -/
noncomputable def Model_forward (nm : NormalizationMethod) (θ : ℕ → ℝ)
    (x : Tensor4) : Option Tensor4 :=
  let θ1 := shiftP θ (netParamCount (Model_conv_block1 nm))
  let θ2 := shiftP θ1 (netParamCount Model_trans_block1)
  let θ3 := shiftP θ2 (netParamCount (Model_conv_block2 nm))
  let θ4 := shiftP θ3 (netParamCount Model_trans_block2)
  let θ5 := shiftP θ4 (netParamCount (Model_conv_block3 nm))
  let θ6 := shiftP θ5 (netParamCount Model_trans_block3)
  let θ7 := shiftP θ6 (netParamCount Model_gap)
  let θ8 := shiftP θ7 (netParamCount Model_out)
  (runNet (Model_conv_block1 nm) θ x).bind fun x =>
  (runNet Model_trans_block1 θ1 x).bind fun x =>
  (runNet (Model_conv_block2 nm) θ2 x).bind fun x =>
  (runNet Model_trans_block2 θ3 x).bind fun x =>
  (runNet (Model_conv_block3 nm) θ4 x).bind fun x =>
  (runNet Model_trans_block3 θ5 x).bind fun x =>
  (runNet Model_gap θ6 x).bind fun x =>
  (runNet Model_out θ7 x).bind fun x =>
  (LayerSpec.view10.apply θ8 x).bind fun x =>
  LayerSpec.logSoftmaxDim1.apply θ8 x

/-- `session_6_Model.convblock1`: Conv 1→16 3x3 pad 0, ReLU, BN(16),
Dropout(dropout_value). -/
def session_6_convblock1 (dv : ℚ) : List LayerSpec :=
  [LayerSpec.conv 1 16 3 3 0, LayerSpec.relu, LayerSpec.batchNorm 16,
    LayerSpec.dropout dv]

/-- `session_6_Model.convblock2`: Conv 16→32 3x3 pad 0, ReLU, BN(32),
Dropout. -/
def session_6_convblock2 (dv : ℚ) : List LayerSpec :=
  [LayerSpec.conv 16 32 3 3 0, LayerSpec.relu, LayerSpec.batchNorm 32,
    LayerSpec.dropout dv]

/-- `session_6_Model.convblock3`: Conv 32→10 1x1 pad 0. -/
def session_6_convblock3 : List LayerSpec := [LayerSpec.conv 32 10 1 1 0]

/-- `session_6_Model.pool1 = nn.MaxPool2d(2, 2)`. -/
def session_6_pool1 : List LayerSpec := [LayerSpec.maxPool 2 2]

/-- `session_6_Model.convblock4`: Conv 10→16 3x3 pad 0, ReLU, BN(16),
Dropout. -/
def session_6_convblock4 (dv : ℚ) : List LayerSpec :=
  [LayerSpec.conv 10 16 3 3 0, LayerSpec.relu, LayerSpec.batchNorm 16,
    LayerSpec.dropout dv]

/-- `session_6_Model.convblock5`: Conv 16→16 3x3 pad 0, ReLU, BN(16),
Dropout. -/
def session_6_convblock5 (dv : ℚ) : List LayerSpec :=
  [LayerSpec.conv 16 16 3 3 0, LayerSpec.relu, LayerSpec.batchNorm 16,
    LayerSpec.dropout dv]

/-- `session_6_Model.convblock6`: Conv 16→16 3x3 pad 0, ReLU, BN(16),
Dropout. -/
def session_6_convblock6 (dv : ℚ) : List LayerSpec :=
  [LayerSpec.conv 16 16 3 3 0, LayerSpec.relu, LayerSpec.batchNorm 16,
    LayerSpec.dropout dv]

/-- `session_6_Model.convblock7`: Conv 16→16 3x3 pad 1, ReLU, BN(16),
Dropout. -/
def session_6_convblock7 (dv : ℚ) : List LayerSpec :=
  [LayerSpec.conv 16 16 3 3 1, LayerSpec.relu, LayerSpec.batchNorm 16,
    LayerSpec.dropout dv]

/-- `session_6_Model.gap = nn.Sequential(nn.AvgPool2d(kernel_size=6))`. -/
def session_6_gap : List LayerSpec := [LayerSpec.avgPool 6]

/-- `session_6_Model.convblock8`: Conv 16→10 1x1 pad 0. -/
def session_6_convblock8 : List LayerSpec := [LayerSpec.conv 16 10 1 1 0]

/-- All blocks of `session_6_Model` in the order `forward` applies them.
(`self.dropout`, declared last in `__init__`, is never used by `forward`
and owns no parameters.) -/
def session_6_blocks (dv : ℚ) : List LayerSpec :=
  session_6_convblock1 dv ++ session_6_convblock2 dv ++
    session_6_convblock3 ++ session_6_pool1 ++ session_6_convblock4 dv ++
    session_6_convblock5 dv ++ session_6_convblock6 dv ++
    session_6_convblock7 dv ++ session_6_gap ++ session_6_convblock8

/-- `session_6_Model.__init__` as run by Python: the first statement that
evaluates `nn.Dropout(dropout_value)` reads the unbound module-level name
`dropout_value`, so construction raises `NameError`. -/
def session_6_Model_init : Except PyError (List LayerSpec) := do
  let dv ← pyName "dropout_value" dropout_value
  pure (session_6_blocks dv)

/-- `session_6_Model.forward`: the straight-line chain of the declared
blocks, then `x.view(-1, 10)` and `F.log_softmax(x, dim=-1)`. -/
noncomputable def session_6_forward (dv : ℚ) (θ : ℕ → ℝ) (x : Tensor4) :
    Option Tensor4 :=
  let θ1 := shiftP θ (netParamCount (session_6_convblock1 dv))
  let θ2 := shiftP θ1 (netParamCount (session_6_convblock2 dv))
  let θ3 := shiftP θ2 (netParamCount session_6_convblock3)
  let θ4 := shiftP θ3 (netParamCount session_6_pool1)
  let θ5 := shiftP θ4 (netParamCount (session_6_convblock4 dv))
  let θ6 := shiftP θ5 (netParamCount (session_6_convblock5 dv))
  let θ7 := shiftP θ6 (netParamCount (session_6_convblock6 dv))
  let θ8 := shiftP θ7 (netParamCount (session_6_convblock7 dv))
  let θ9 := shiftP θ8 (netParamCount session_6_gap)
  let θA := shiftP θ9 (netParamCount session_6_convblock8)
  (runNet (session_6_convblock1 dv) θ x).bind fun x =>
  (runNet (session_6_convblock2 dv) θ1 x).bind fun x =>
  (runNet session_6_convblock3 θ2 x).bind fun x =>
  (runNet session_6_pool1 θ3 x).bind fun x =>
  (runNet (session_6_convblock4 dv) θ4 x).bind fun x =>
  (runNet (session_6_convblock5 dv) θ5 x).bind fun x =>
  (runNet (session_6_convblock6 dv) θ6 x).bind fun x =>
  (runNet (session_6_convblock7 dv) θ7 x).bind fun x =>
  (runNet session_6_gap θ8 x).bind fun x =>
  (runNet session_6_convblock8 θ9 x).bind fun x =>
  (LayerSpec.view10.apply θA x).bind fun x =>
  LayerSpec.logSoftmaxDim1.apply θA x

/-- `Session_7_Model_1.convblock1`: Conv 1→8 3x3 pad 0, ReLU, BN(8),
Dropout(dropout_value). -/
def Session_7_Model_1_convblock1 (dv : ℚ) : List LayerSpec :=
  [LayerSpec.conv 1 8 3 3 0, LayerSpec.relu, LayerSpec.batchNorm 8,
    LayerSpec.dropout dv]

/-- `Session_7_Model_1.convblock2`: Conv 8→16 3x3 pad 0, ReLU, BN(16),
Dropout. -/
def Session_7_Model_1_convblock2 (dv : ℚ) : List LayerSpec :=
  [LayerSpec.conv 8 16 3 3 0, LayerSpec.relu, LayerSpec.batchNorm 16,
    LayerSpec.dropout dv]

/-- `Session_7_Model_1.convblock3`: Conv 16→10 1x1 pad 0. -/
def Session_7_Model_1_convblock3 : List LayerSpec :=
  [LayerSpec.conv 16 10 1 1 0]

/-- `Session_7_Model_1.pool1 = nn.MaxPool2d(2, 2)`. -/
def Session_7_Model_1_pool1 : List LayerSpec := [LayerSpec.maxPool 2 2]

/-- `Session_7_Model_1.convblock4`: Conv 10→10 3x3 pad 0, ReLU, BN(10),
Dropout. -/
def Session_7_Model_1_convblock4 (dv : ℚ) : List LayerSpec :=
  [LayerSpec.conv 10 10 3 3 0, LayerSpec.relu, LayerSpec.batchNorm 10,
    LayerSpec.dropout dv]

/-- `Session_7_Model_1.convblock5`: Conv 10→10 3x3 pad 1, ReLU, BN(10),
Dropout. -/
def Session_7_Model_1_convblock5 (dv : ℚ) : List LayerSpec :=
  [LayerSpec.conv 10 10 3 3 1, LayerSpec.relu, LayerSpec.batchNorm 10,
    LayerSpec.dropout dv]

/-- `Session_7_Model_1.pool2 = nn.MaxPool2d(2, 2)`. -/
def Session_7_Model_1_pool2 : List LayerSpec := [LayerSpec.maxPool 2 2]

/-- `Session_7_Model_1.convblock6`: Conv 10→10 3x3 pad 1, ReLU, BN(10),
Dropout. -/
def Session_7_Model_1_convblock6 (dv : ℚ) : List LayerSpec :=
  [LayerSpec.conv 10 10 3 3 1, LayerSpec.relu, LayerSpec.batchNorm 10,
    LayerSpec.dropout dv]

/-- `Session_7_Model_1.gap = nn.Sequential(nn.AvgPool2d(kernel_size=5))`. -/
def Session_7_Model_1_gap : List LayerSpec := [LayerSpec.avgPool 5]

/-- `Session_7_Model_1.convblock7`: Conv 10→10 1x1 pad 0, BN(10), ReLU,
Dropout (in that order). -/
def Session_7_Model_1_convblock7 (dv : ℚ) : List LayerSpec :=
  [LayerSpec.conv 10 10 1 1 0, LayerSpec.batchNorm 10, LayerSpec.relu,
    LayerSpec.dropout dv]

/-- All blocks of `Session_7_Model_1` in the order `forward` applies
them. -/
def Session_7_Model_1_blocks (dv : ℚ) : List LayerSpec :=
  Session_7_Model_1_convblock1 dv ++ Session_7_Model_1_convblock2 dv ++
    Session_7_Model_1_convblock3 ++ Session_7_Model_1_pool1 ++
    Session_7_Model_1_convblock4 dv ++ Session_7_Model_1_convblock5 dv ++
    Session_7_Model_1_pool2 ++ Session_7_Model_1_convblock6 dv ++
    Session_7_Model_1_gap ++ Session_7_Model_1_convblock7 dv

/-- `Session_7_Model_1.__init__` as run by Python: evaluating
`nn.Dropout(dropout_value)` reads the unbound module-level name
`dropout_value`, so construction raises `NameError`. -/
def Session_7_Model_1_init : Except PyError (List LayerSpec) := do
  let dv ← pyName "dropout_value" dropout_value
  pure (Session_7_Model_1_blocks dv)

/-- `Session_7_Model_1.forward`: the straight-line chain of the declared
blocks, then `x.view(-1, 10)` and `F.log_softmax(x, dim=-1)`. -/
noncomputable def Session_7_Model_1_forward (dv : ℚ) (θ : ℕ → ℝ)
    (x : Tensor4) : Option Tensor4 :=
  let θ1 := shiftP θ (netParamCount (Session_7_Model_1_convblock1 dv))
  let θ2 := shiftP θ1 (netParamCount (Session_7_Model_1_convblock2 dv))
  let θ3 := shiftP θ2 (netParamCount Session_7_Model_1_convblock3)
  let θ4 := shiftP θ3 (netParamCount Session_7_Model_1_pool1)
  let θ5 := shiftP θ4 (netParamCount (Session_7_Model_1_convblock4 dv))
  let θ6 := shiftP θ5 (netParamCount (Session_7_Model_1_convblock5 dv))
  let θ7 := shiftP θ6 (netParamCount Session_7_Model_1_pool2)
  let θ8 := shiftP θ7 (netParamCount (Session_7_Model_1_convblock6 dv))
  let θ9 := shiftP θ8 (netParamCount Session_7_Model_1_gap)
  let θA := shiftP θ9 (netParamCount (Session_7_Model_1_convblock7 dv))
  (runNet (Session_7_Model_1_convblock1 dv) θ x).bind fun x =>
  (runNet (Session_7_Model_1_convblock2 dv) θ1 x).bind fun x =>
  (runNet Session_7_Model_1_convblock3 θ2 x).bind fun x =>
  (runNet Session_7_Model_1_pool1 θ3 x).bind fun x =>
  (runNet (Session_7_Model_1_convblock4 dv) θ4 x).bind fun x =>
  (runNet (Session_7_Model_1_convblock5 dv) θ5 x).bind fun x =>
  (runNet Session_7_Model_1_pool2 θ6 x).bind fun x =>
  (runNet (Session_7_Model_1_convblock6 dv) θ7 x).bind fun x =>
  (runNet Session_7_Model_1_gap θ8 x).bind fun x =>
  (runNet (Session_7_Model_1_convblock7 dv) θ9 x).bind fun x =>
  (LayerSpec.view10.apply θA x).bind fun x =>
  LayerSpec.logSoftmaxDim1.apply θA x

/-- `Session_7_Model_2.convblock1`: Conv 1→8 3x3 pad 0, ReLU, BN(8). -/
def Session_7_Model_2_convblock1 : List LayerSpec :=
  [LayerSpec.conv 1 8 3 3 0, LayerSpec.relu, LayerSpec.batchNorm 8]

/-- `Session_7_Model_2.convblock2`: Conv 8→16 3x3 pad 0, ReLU, BN(16). -/
def Session_7_Model_2_convblock2 : List LayerSpec :=
  [LayerSpec.conv 8 16 3 3 0, LayerSpec.relu, LayerSpec.batchNorm 16]

/-- `Session_7_Model_2.convblock3`: Conv 16→10 1x1 pad 0. -/
def Session_7_Model_2_convblock3 : List LayerSpec :=
  [LayerSpec.conv 16 10 1 1 0]

/-- `Session_7_Model_2.pool1 = nn.MaxPool2d(2, 2)`. -/
def Session_7_Model_2_pool1 : List LayerSpec := [LayerSpec.maxPool 2 2]

/-- `Session_7_Model_2.convblock4`: Conv 10→10 3x3 pad 0, ReLU, BN(10). -/
def Session_7_Model_2_convblock4 : List LayerSpec :=
  [LayerSpec.conv 10 10 3 3 0, LayerSpec.relu, LayerSpec.batchNorm 10]

/-- `Session_7_Model_2.convblock5`: Conv 10→16 3x3 pad 0, ReLU, BN(16). -/
def Session_7_Model_2_convblock5 : List LayerSpec :=
  [LayerSpec.conv 10 16 3 3 0, LayerSpec.relu, LayerSpec.batchNorm 16]

/-- `Session_7_Model_2.convblock6`: Conv 16→10 3x3 pad 0, ReLU, BN(10). -/
def Session_7_Model_2_convblock6 : List LayerSpec :=
  [LayerSpec.conv 16 10 3 3 0, LayerSpec.relu, LayerSpec.batchNorm 10]

/-- `Session_7_Model_2.convblock7`: Conv 10→10 3x3 pad 0, ReLU, BN(10). -/
def Session_7_Model_2_convblock7 : List LayerSpec :=
  [LayerSpec.conv 10 10 3 3 0, LayerSpec.relu, LayerSpec.batchNorm 10]

/-- `Session_7_Model_2.convblock8`: Conv 10→10 3x3 pad 0, ReLU, BN(10). -/
def Session_7_Model_2_convblock8 : List LayerSpec :=
  [LayerSpec.conv 10 10 3 3 0, LayerSpec.relu, LayerSpec.batchNorm 10]

/-- `Session_7_Model_2.convblock9`: Conv 10→10 2x2 pad 0. -/
def Session_7_Model_2_convblock9 : List LayerSpec :=
  [LayerSpec.conv 10 10 2 2 0]

/-- All blocks of `Session_7_Model_2` in declaration order (which is also
the order `forward` applies them). -/
def Session_7_Model_2_blocks : List LayerSpec :=
  Session_7_Model_2_convblock1 ++ Session_7_Model_2_convblock2 ++
    Session_7_Model_2_convblock3 ++ Session_7_Model_2_pool1 ++
    Session_7_Model_2_convblock4 ++ Session_7_Model_2_convblock5 ++
    Session_7_Model_2_convblock6 ++ Session_7_Model_2_convblock7 ++
    Session_7_Model_2_convblock8 ++ Session_7_Model_2_convblock9

/-- `Session_7_Model_2.__init__` as run by Python: only library
constructor calls, no fallible repository code. -/
def Session_7_Model_2_init : Except PyError (List LayerSpec) :=
  Except.ok Session_7_Model_2_blocks

/-- `Session_7_Model_2.forward`: the straight-line chain of the declared
blocks, then `x.view(-1, 10)` and `F.log_softmax(x, dim=-1)`. -/
noncomputable def Session_7_Model_2_forward (θ : ℕ → ℝ) (x : Tensor4) :
    Option Tensor4 :=
  let θ1 := shiftP θ (netParamCount Session_7_Model_2_convblock1)
  let θ2 := shiftP θ1 (netParamCount Session_7_Model_2_convblock2)
  let θ3 := shiftP θ2 (netParamCount Session_7_Model_2_convblock3)
  let θ4 := shiftP θ3 (netParamCount Session_7_Model_2_pool1)
  let θ5 := shiftP θ4 (netParamCount Session_7_Model_2_convblock4)
  let θ6 := shiftP θ5 (netParamCount Session_7_Model_2_convblock5)
  let θ7 := shiftP θ6 (netParamCount Session_7_Model_2_convblock6)
  let θ8 := shiftP θ7 (netParamCount Session_7_Model_2_convblock7)
  let θ9 := shiftP θ8 (netParamCount Session_7_Model_2_convblock8)
  let θA := shiftP θ9 (netParamCount Session_7_Model_2_convblock9)
  (runNet Session_7_Model_2_convblock1 θ x).bind fun x =>
  (runNet Session_7_Model_2_convblock2 θ1 x).bind fun x =>
  (runNet Session_7_Model_2_convblock3 θ2 x).bind fun x =>
  (runNet Session_7_Model_2_pool1 θ3 x).bind fun x =>
  (runNet Session_7_Model_2_convblock4 θ4 x).bind fun x =>
  (runNet Session_7_Model_2_convblock5 θ5 x).bind fun x =>
  (runNet Session_7_Model_2_convblock6 θ6 x).bind fun x =>
  (runNet Session_7_Model_2_convblock7 θ7 x).bind fun x =>
  (runNet Session_7_Model_2_convblock8 θ8 x).bind fun x =>
  (runNet Session_7_Model_2_convblock9 θ9 x).bind fun x =>
  (LayerSpec.view10.apply θA x).bind fun x =>
  LayerSpec.logSoftmaxDim1.apply θA x

/-- `Session_7_Model_3.convblock1`: Conv 1→8 3x3 pad 0, ReLU, BN(8). -/
def Session_7_Model_3_convblock1 : List LayerSpec :=
  [LayerSpec.conv 1 8 3 3 0, LayerSpec.relu, LayerSpec.batchNorm 8]

/-- `Session_7_Model_3.convblock2`: Conv 8→16 3x3 pad 0, ReLU, BN(16). -/
def Session_7_Model_3_convblock2 : List LayerSpec :=
  [LayerSpec.conv 8 16 3 3 0, LayerSpec.relu, LayerSpec.batchNorm 16]

/-- `Session_7_Model_3.convblock3`: Conv 16→10 1x1 pad 0. -/
def Session_7_Model_3_convblock3 : List LayerSpec :=
  [LayerSpec.conv 16 10 1 1 0]

/-- `Session_7_Model_3.pool1 = nn.MaxPool2d(2, 2)`. -/
def Session_7_Model_3_pool1 : List LayerSpec := [LayerSpec.maxPool 2 2]

/-- `Session_7_Model_3.convblock4`: Conv 10→10 3x3 pad 0, ReLU, BN(10). -/
def Session_7_Model_3_convblock4 : List LayerSpec :=
  [LayerSpec.conv 10 10 3 3 0, LayerSpec.relu, LayerSpec.batchNorm 10]

/-- `Session_7_Model_3.convblock5`: Conv 10→16 3x3 pad 0, ReLU, BN(16). -/
def Session_7_Model_3_convblock5 : List LayerSpec :=
  [LayerSpec.conv 10 16 3 3 0, LayerSpec.relu, LayerSpec.batchNorm 16]

/-- `Session_7_Model_3.convblock6`: Conv 16→10 3x3 pad 0, ReLU, BN(10). -/
def Session_7_Model_3_convblock6 : List LayerSpec :=
  [LayerSpec.conv 16 10 3 3 0, LayerSpec.relu, LayerSpec.batchNorm 10]

/-- `Session_7_Model_3.convblock7`: Conv 10→10 3x3 pad 0, ReLU, BN(10). -/
def Session_7_Model_3_convblock7 : List LayerSpec :=
  [LayerSpec.conv 10 10 3 3 0, LayerSpec.relu, LayerSpec.batchNorm 10]

/-- `Session_7_Model_3.convblock8`: Conv 10→10 3x3 pad 0, ReLU, BN(10). -/
def Session_7_Model_3_convblock8 : List LayerSpec :=
  [LayerSpec.conv 10 10 3 3 0, LayerSpec.relu, LayerSpec.batchNorm 10]

/-- `Session_7_Model_3.convblock9`: Conv 10→10 2x2 pad 0. -/
def Session_7_Model_3_convblock9 : List LayerSpec :=
  [LayerSpec.conv 10 10 2 2 0]

/-- All blocks of `Session_7_Model_3` in declaration order (which is also
the order `forward` applies them). -/
def Session_7_Model_3_blocks : List LayerSpec :=
  Session_7_Model_3_convblock1 ++ Session_7_Model_3_convblock2 ++
    Session_7_Model_3_convblock3 ++ Session_7_Model_3_pool1 ++
    Session_7_Model_3_convblock4 ++ Session_7_Model_3_convblock5 ++
    Session_7_Model_3_convblock6 ++ Session_7_Model_3_convblock7 ++
    Session_7_Model_3_convblock8 ++ Session_7_Model_3_convblock9

/-- `Session_7_Model_3.__init__` as run by Python: only library
constructor calls, no fallible repository code. -/
def Session_7_Model_3_init : Except PyError (List LayerSpec) :=
  Except.ok Session_7_Model_3_blocks

/-- `Session_7_Model_3.forward`: the straight-line chain of the declared
blocks, then `x.view(-1, 10)` and `F.log_softmax(x, dim=-1)`. -/
noncomputable def Session_7_Model_3_forward (θ : ℕ → ℝ) (x : Tensor4) :
    Option Tensor4 :=
  let θ1 := shiftP θ (netParamCount Session_7_Model_3_convblock1)
  let θ2 := shiftP θ1 (netParamCount Session_7_Model_3_convblock2)
  let θ3 := shiftP θ2 (netParamCount Session_7_Model_3_convblock3)
  let θ4 := shiftP θ3 (netParamCount Session_7_Model_3_pool1)
  let θ5 := shiftP θ4 (netParamCount Session_7_Model_3_convblock4)
  let θ6 := shiftP θ5 (netParamCount Session_7_Model_3_convblock5)
  let θ7 := shiftP θ6 (netParamCount Session_7_Model_3_convblock6)
  let θ8 := shiftP θ7 (netParamCount Session_7_Model_3_convblock7)
  let θ9 := shiftP θ8 (netParamCount Session_7_Model_3_convblock8)
  let θA := shiftP θ9 (netParamCount Session_7_Model_3_convblock9)
  (runNet Session_7_Model_3_convblock1 θ x).bind fun x =>
  (runNet Session_7_Model_3_convblock2 θ1 x).bind fun x =>
  (runNet Session_7_Model_3_convblock3 θ2 x).bind fun x =>
  (runNet Session_7_Model_3_pool1 θ3 x).bind fun x =>
  (runNet Session_7_Model_3_convblock4 θ4 x).bind fun x =>
  (runNet Session_7_Model_3_convblock5 θ5 x).bind fun x =>
  (runNet Session_7_Model_3_convblock6 θ6 x).bind fun x =>
  (runNet Session_7_Model_3_convblock7 θ7 x).bind fun x =>
  (runNet Session_7_Model_3_convblock8 θ8 x).bind fun x =>
  (runNet Session_7_Model_3_convblock9 θ9 x).bind fun x =>
  (LayerSpec.view10.apply θA x).bind fun x =>
  LayerSpec.logSoftmaxDim1.apply θA x

/-- The five model variants defined by `model.py`, with the configuration
their constructors take (`Model`'s normalization method; the dropout
probability the two broken constructors would pass to `nn.Dropout` had
`dropout_value` been bound). -/
inductive Variant where
  | model (nm : NormalizationMethod)
  | session6 (dv : ℚ)
  | s7m1 (dv : ℚ)
  | s7m2
  | s7m3

/-- The declared layer blocks of a variant, in forward order. -/
def Variant.blocks : Variant → List LayerSpec
  | .model nm => Model_blocks nm
  | .session6 dv => session_6_blocks dv
  | .s7m1 dv => Session_7_Model_1_blocks dv
  | .s7m2 => Session_7_Model_2_blocks
  | .s7m3 => Session_7_Model_3_blocks

/-- The `forward` method of a variant. -/
noncomputable def Variant.forward : Variant → (ℕ → ℝ) → Tensor4 → Option Tensor4
  | .model nm => Model_forward nm
  | .session6 dv => session_6_forward dv
  | .s7m1 dv => Session_7_Model_1_forward dv
  | .s7m2 => Session_7_Model_2_forward
  | .s7m3 => Session_7_Model_3_forward

/-- The `view`-free prefix of `Model`'s blocks (everything before the gap
and the `out` conv). -/
def Model_pre (nm : NormalizationMethod) : List LayerSpec :=
  Model_conv_block1 nm ++ Model_trans_block1 ++ Model_conv_block2 nm ++
    Model_trans_block2 ++ Model_conv_block3 nm ++ Model_trans_block3

/-- The parameter store shared by all module instances: a flat memory and
a bump allocator. -/
structure Store where
  mem : ℕ → ℝ
  next : ℕ

/-- A constructed module instance: the base address of its parameter
region and its layer sequence. -/
structure Instance where
  base : ℕ
  specs : List LayerSpec

/-- Constructing a module allocates a fresh parameter region (filled from
`f`) past every previously allocated region; no existing cell is
reused. -/
def allocNet (specs : List LayerSpec) (f : ℕ → ℝ) (s : Store) :
    Instance × Store :=
  (⟨s.next, specs⟩,
    ⟨fun i => if s.next ≤ i ∧ i < s.next + netParamCount specs then
        f (i - s.next)
      else s.mem i,
      s.next + netParamCount specs⟩)

/-- The parameter slice owned by an instance, as read from the store. -/
def Instance.params (inst : Instance) (s : Store) : ℕ → ℝ :=
  fun i => s.mem (inst.base + i)

/-- Run the instance's `forward` against the store (evaluation mode: the
store is only read). -/
noncomputable def Instance.forwardIn (inst : Instance) (s : Store)
    (x : Tensor4) : Option Tensor4 :=
  runNet inst.specs (inst.params s) x

/-- Overwrite the `i`-th parameter scalar owned by an instance. -/
def Instance.setParam (inst : Instance) (i : ℕ) (v : ℝ) (s : Store) :
    Store :=
  if i < netParamCount inst.specs then
    ⟨fun j => if j = inst.base + i then v else s.mem j, s.next⟩
  else s


/-- A layer's output signature is a function of its input signature alone:
`sigSpec` computes exactly the shape/dtype behaviour of `apply`. -/
lemma apply_sig (s : LayerSpec) (θ : ℕ → ℝ) (x : Tensor4) :
    (s.apply θ x).map Tensor4.sig = sigSpec s x.sig := by
  obtain ⟨n, c, h, w, dt, d⟩ := x
  cases s <;>
    simp only [LayerSpec.apply, sigSpec, Tensor4.sig] <;>
    first
      | rfl
      | (split <;> simp [Tensor4.sig])

lemma netParamCount_nil : netParamCount [] = 0 := rfl

lemma netParamCount_cons (s : LayerSpec) (l : List LayerSpec) :
    netParamCount (s :: l) = s.paramCount + netParamCount l := by
  simp [netParamCount]

lemma netParamCount_append (l1 l2 : List LayerSpec) :
    netParamCount (l1 ++ l2) = netParamCount l1 + netParamCount l2 := by
  simp [netParamCount]

lemma shiftP_shiftP (θ : ℕ → ℝ) (a b : ℕ) :
    shiftP (shiftP θ a) b = shiftP θ (b + a) := by
  funext i
  simp [shiftP, Nat.add_assoc]

/-- The run of a network has the shape/dtype behaviour computed by
`runNetSig`. -/
lemma runNet_sig (specs : List LayerSpec) (θ : ℕ → ℝ) (x : Tensor4) :
    (runNet specs θ x).map Tensor4.sig = runNetSig specs x.sig := by
  induction specs generalizing θ x with
  | nil => rfl
  | cons s rest ih =>
      rw [runNet, runNetSig, ← apply_sig s θ x]
      cases happ : s.apply θ x with
      | none => rfl
      | some y => simpa using ih (shiftP θ s.paramCount) y

lemma runNetSig_cons (s : LayerSpec) (rest : List LayerSpec) (g : Sig) :
    runNetSig (s :: rest) g = (sigSpec s g).bind (runNetSig rest) := rfl

lemma runNetSig_append (l1 l2 : List LayerSpec) (g : Sig) :
    runNetSig (l1 ++ l2) g = (runNetSig l1 g).bind (runNetSig l2) := by
  induction l1 generalizing g with
  | nil => rfl
  | cons s rest ih =>
      rw [List.cons_append, runNetSig_cons, runNetSig_cons]
      cases sigSpec s g with
      | none => rfl
      | some g' => simpa using ih g'

/-- Splitting a straight-line run at a block boundary: the tail reads its
parameters after the head's. -/
lemma runNet_append (l1 l2 : List LayerSpec) (θ : ℕ → ℝ) (x : Tensor4) :
    runNet (l1 ++ l2) θ x =
      (runNet l1 θ x).bind (runNet l2 (shiftP θ (netParamCount l1))) := by
  induction l1 generalizing θ x with
  | nil => rfl
  | cons s rest ih =>
      rw [List.cons_append, runNet, runNet]
      cases happ : s.apply θ x with
      | none => rfl
      | some y =>
          simp only [Option.bind_some, Option.some_bind]
          rw [ih, shiftP_shiftP, netParamCount_cons, Nat.add_comm]

/-- If the shape/dtype run succeeds on a tensor's signature, the numeric
run succeeds and produces that signature. -/
lemma runNet_total_of_sig {specs : List LayerSpec} {x : Tensor4} {t : Sig}
    (θ : ℕ → ℝ) (hsig : runNetSig specs x.sig = some t) :
    ∃ y, runNet specs θ x = some y ∧ y.sig = t := by
  have h := runNet_sig specs θ x
  rw [hsig] at h
  exact Option.map_eq_some'.mp h

lemma shiftP_zero (θ : ℕ → ℝ) : shiftP θ 0 = θ := rfl

/-- Pointwise form of `runNet_append`, for rewriting partial
applications. -/
lemma runNet_append_fun (l1 l2 : List LayerSpec) (θ : ℕ → ℝ) :
    runNet (l1 ++ l2) θ = fun x =>
      (runNet l1 θ x).bind (runNet l2 (shiftP θ (netParamCount l1))) := by
  funext x
  exact runNet_append l1 l2 θ x

/-- `Model.forward` is the straight-line run of the declared blocks in
declaration order, followed by `view(-1, 10)` and `log_softmax(dim=1)`. -/
lemma Model_forward_eq (nm : NormalizationMethod) (θ : ℕ → ℝ) (x : Tensor4) :
    Model_forward nm θ x =
      runNet (Model_blocks nm ++
        [LayerSpec.view10, LayerSpec.logSoftmaxDim1]) θ x := by
  rw [show Model_blocks nm ++ [LayerSpec.view10, LayerSpec.logSoftmaxDim1] =
    Model_conv_block1 nm ++ (Model_trans_block1 ++ (Model_conv_block2 nm ++
      (Model_trans_block2 ++ (Model_conv_block3 nm ++ (Model_trans_block3 ++
        (Model_gap ++ (Model_out ++
          [LayerSpec.view10, LayerSpec.logSoftmaxDim1])))))))
    from by simp [Model_blocks, List.append_assoc]]
  rw [runNet_append, runNet_append_fun, runNet_append_fun,
    runNet_append_fun, runNet_append_fun, runNet_append_fun,
    runNet_append_fun, runNet_append_fun]
  rfl

/-- `session_6_Model.forward` is the straight-line run of the declared
blocks, followed by `view(-1, 10)` and `log_softmax(dim=-1)`. -/
lemma session_6_forward_eq (dv : ℚ) (θ : ℕ → ℝ) (x : Tensor4) :
    session_6_forward dv θ x =
      runNet (session_6_blocks dv ++
        [LayerSpec.view10, LayerSpec.logSoftmaxDim1]) θ x := by
  rw [show session_6_blocks dv ++
      [LayerSpec.view10, LayerSpec.logSoftmaxDim1] =
    session_6_convblock1 dv ++ (session_6_convblock2 dv ++
      (session_6_convblock3 ++ (session_6_pool1 ++
        (session_6_convblock4 dv ++ (session_6_convblock5 dv ++
          (session_6_convblock6 dv ++ (session_6_convblock7 dv ++
            (session_6_gap ++ (session_6_convblock8 ++
              [LayerSpec.view10, LayerSpec.logSoftmaxDim1])))))))))
    from by simp [session_6_blocks, List.append_assoc]]
  rw [runNet_append, runNet_append_fun, runNet_append_fun,
    runNet_append_fun, runNet_append_fun, runNet_append_fun,
    runNet_append_fun, runNet_append_fun, runNet_append_fun,
    runNet_append_fun]
  rfl

/-- `Session_7_Model_1.forward` is the straight-line run of the declared
blocks, followed by `view(-1, 10)` and `log_softmax(dim=-1)`. -/
lemma Session_7_Model_1_forward_eq (dv : ℚ) (θ : ℕ → ℝ) (x : Tensor4) :
    Session_7_Model_1_forward dv θ x =
      runNet (Session_7_Model_1_blocks dv ++
        [LayerSpec.view10, LayerSpec.logSoftmaxDim1]) θ x := by
  rw [show Session_7_Model_1_blocks dv ++
      [LayerSpec.view10, LayerSpec.logSoftmaxDim1] =
    Session_7_Model_1_convblock1 dv ++ (Session_7_Model_1_convblock2 dv ++
      (Session_7_Model_1_convblock3 ++ (Session_7_Model_1_pool1 ++
        (Session_7_Model_1_convblock4 dv ++
          (Session_7_Model_1_convblock5 dv ++ (Session_7_Model_1_pool2 ++
            (Session_7_Model_1_convblock6 dv ++ (Session_7_Model_1_gap ++
              (Session_7_Model_1_convblock7 dv ++
                [LayerSpec.view10, LayerSpec.logSoftmaxDim1])))))))))
    from by simp [Session_7_Model_1_blocks, List.append_assoc]]
  rw [runNet_append, runNet_append_fun, runNet_append_fun,
    runNet_append_fun, runNet_append_fun, runNet_append_fun,
    runNet_append_fun, runNet_append_fun, runNet_append_fun,
    runNet_append_fun]
  rfl

/-- `Session_7_Model_2.forward` is the straight-line run of the declared
blocks, followed by `view(-1, 10)` and `log_softmax(dim=-1)`. -/
lemma Session_7_Model_2_forward_eq (θ : ℕ → ℝ) (x : Tensor4) :
    Session_7_Model_2_forward θ x =
      runNet (Session_7_Model_2_blocks ++
        [LayerSpec.view10, LayerSpec.logSoftmaxDim1]) θ x := by
  rw [show Session_7_Model_2_blocks ++
      [LayerSpec.view10, LayerSpec.logSoftmaxDim1] =
    Session_7_Model_2_convblock1 ++ (Session_7_Model_2_convblock2 ++
      (Session_7_Model_2_convblock3 ++ (Session_7_Model_2_pool1 ++
        (Session_7_Model_2_convblock4 ++ (Session_7_Model_2_convblock5 ++
          (Session_7_Model_2_convblock6 ++ (Session_7_Model_2_convblock7 ++
            (Session_7_Model_2_convblock8 ++ (Session_7_Model_2_convblock9 ++
              [LayerSpec.view10, LayerSpec.logSoftmaxDim1])))))))))
    from by simp [Session_7_Model_2_blocks, List.append_assoc]]
  rw [runNet_append, runNet_append_fun, runNet_append_fun,
    runNet_append_fun, runNet_append_fun, runNet_append_fun,
    runNet_append_fun, runNet_append_fun, runNet_append_fun,
    runNet_append_fun]
  rfl

/-- `Session_7_Model_3.forward` is the straight-line run of the declared
blocks, followed by `view(-1, 10)` and `log_softmax(dim=-1)`. -/
lemma Session_7_Model_3_forward_eq (θ : ℕ → ℝ) (x : Tensor4) :
    Session_7_Model_3_forward θ x =
      runNet (Session_7_Model_3_blocks ++
        [LayerSpec.view10, LayerSpec.logSoftmaxDim1]) θ x := by
  rw [show Session_7_Model_3_blocks ++
      [LayerSpec.view10, LayerSpec.logSoftmaxDim1] =
    Session_7_Model_3_convblock1 ++ (Session_7_Model_3_convblock2 ++
      (Session_7_Model_3_convblock3 ++ (Session_7_Model_3_pool1 ++
        (Session_7_Model_3_convblock4 ++ (Session_7_Model_3_convblock5 ++
          (Session_7_Model_3_convblock6 ++ (Session_7_Model_3_convblock7 ++
            (Session_7_Model_3_convblock8 ++ (Session_7_Model_3_convblock9 ++
              [LayerSpec.view10, LayerSpec.logSoftmaxDim1])))))))))
    from by simp [Session_7_Model_3_blocks, List.append_assoc]]
  rw [runNet_append, runNet_append_fun, runNet_append_fun,
    runNet_append_fun, runNet_append_fun, runNet_append_fun,
    runNet_append_fun, runNet_append_fun, runNet_append_fun,
    runNet_append_fun]
  rfl

/-- Uniform version: every variant's `forward` is the straight-line run of
its declared blocks followed by the `view` and `log_softmax` tail. -/
lemma Variant.forward_eq (v : Variant) (θ : ℕ → ℝ) (x : Tensor4) :
    v.forward θ x =
      runNet (v.blocks ++ [LayerSpec.view10, LayerSpec.logSoftmaxDim1])
        θ x := by
  cases v with
  | model nm => exact Model_forward_eq nm θ x
  | session6 dv => exact session_6_forward_eq dv θ x
  | s7m1 dv => exact Session_7_Model_1_forward_eq dv θ x
  | s7m2 => exact Session_7_Model_2_forward_eq θ x
  | s7m3 => exact Session_7_Model_3_forward_eq θ x

/-- Every entry of a log-softmax vector is nonpositive. -/
lemma logSoftmax_entry_nonpos {c : ℕ} (hc : 0 < c) (f : ℕ → ℝ) {cc : ℕ}
    (hcc : cc < c) :
    f cc - Real.log (∑ c' ∈ Finset.range c, Real.exp (f c')) ≤ 0 := by
  have hS : 0 < ∑ c' ∈ Finset.range c, Real.exp (f c') :=
    Finset.sum_pos (fun i _ => Real.exp_pos (f i))
      ⟨0, Finset.mem_range.mpr hc⟩
  have hle : Real.exp (f cc) ≤ ∑ c' ∈ Finset.range c, Real.exp (f c') :=
    Finset.single_le_sum (fun i _ => (Real.exp_pos (f i)).le)
      (Finset.mem_range.mpr hcc)
  have := (Real.le_log_iff_exp_le hS).mpr hle
  linarith

/-- The exponentials of a log-softmax vector sum to `1`. -/
lemma logSoftmax_sum_exp {c : ℕ} (hc : 0 < c) (f : ℕ → ℝ) :
    ∑ cc ∈ Finset.range c,
      Real.exp (f cc - Real.log (∑ c' ∈ Finset.range c, Real.exp (f c'))) =
      1 := by
  have hS : 0 < ∑ c' ∈ Finset.range c, Real.exp (f c') :=
    Finset.sum_pos (fun i _ => Real.exp_pos (f i))
      ⟨0, Finset.mem_range.mpr hc⟩
  have hrw : ∀ cc : ℕ,
      Real.exp (f cc -
        Real.log (∑ c' ∈ Finset.range c, Real.exp (f c'))) =
      Real.exp (f cc) / ∑ c' ∈ Finset.range c, Real.exp (f c') := by
    intro cc
    rw [Real.exp_sub, Real.exp_log hS]
  calc ∑ cc ∈ Finset.range c,
        Real.exp (f cc -
          Real.log (∑ c' ∈ Finset.range c, Real.exp (f c'))) =
      ∑ cc ∈ Finset.range c,
        Real.exp (f cc) / ∑ c' ∈ Finset.range c, Real.exp (f c') := by
        exact Finset.sum_congr rfl (fun cc _ => hrw cc)
    _ = (∑ cc ∈ Finset.range c, Real.exp (f cc)) /
          ∑ c' ∈ Finset.range c, Real.exp (f c') := by
        rw [Finset.sum_div]
    _ = 1 := div_self (ne_of_gt hS)

/-- Outcome of the `x.view(-1, 10)`-then-`log_softmax` tail shared by every
`forward` method: whenever it succeeds, the result is a `(M, 10)` tensor
(trailing dims 1) of nonpositive entries whose per-row exponentials sum
to `1`. -/
lemma view_logSoftmax_props {θ1 θ2 : ℕ → ℝ} {z y : Tensor4}
    (h : (LayerSpec.view10.apply θ1 z).bind
      (LayerSpec.logSoftmaxDim1.apply θ2) = some y) :
    y.c = 10 ∧ y.h = 1 ∧ y.w = 1 ∧
      (∀ nn cc, cc < 10 → y.data nn cc 0 0 ≤ 0) ∧
      (∀ nn, ∑ cc ∈ Finset.range 10, Real.exp (y.data nn cc 0 0) = 1) := by
  obtain ⟨v, hv, hy⟩ := Option.bind_eq_some.mp h
  simp only [LayerSpec.apply] at hv
  by_cases hd : 10 ∣ z.n * z.c * z.h * z.w
  · rw [if_pos hd] at hv
    simp only [LayerSpec.apply] at hy
    rw [Option.some.injEq] at hv hy
    have hvc : v.c = 10 := by rw [← hv]
    have hvh : v.h = 1 := by rw [← hv]
    have hvw : v.w = 1 := by rw [← hv]
    subst hy
    refine ⟨hvc, hvh, hvw, ?_, ?_⟩
    · intro nn cc hcc
      show v.data nn cc 0 0 -
        Real.log (∑ c' ∈ Finset.range v.c, Real.exp (v.data nn c' 0 0)) ≤ 0
      rw [hvc]
      exact logSoftmax_entry_nonpos (by norm_num) (fun t => v.data nn t 0 0)
        hcc
    · intro nn
      show ∑ cc ∈ Finset.range 10, Real.exp (v.data nn cc 0 0 -
        Real.log (∑ c' ∈ Finset.range v.c, Real.exp (v.data nn c' 0 0))) = 1
      rw [hvc]
      exact logSoftmax_sum_exp (by norm_num) (fun t => v.data nn t 0 0)
  · rw [if_neg hd] at hv
    exact absurd hv (by simp)

lemma sigSpec_conv_pos {inC outC kh kw pad n c h w : ℕ} {dt : DType}
    (hdt : dt = DType.float32) (hc : c = inC) (hh : kh ≤ h + 2 * pad)
    (hw : kw ≤ w + 2 * pad) :
    sigSpec (LayerSpec.conv inC outC kh kw pad) ((n, c, h, w), dt) =
      some ((n, outC, h + 2 * pad + 1 - kh, w + 2 * pad + 1 - kw),
        DType.float32) := by
  simp [sigSpec, hdt, hc, hh, hw]

lemma sigSpec_batchNorm_pos {C n h w : ℕ} :
    sigSpec (LayerSpec.batchNorm C) ((n, C, h, w), DType.float32) =
      some ((n, C, h, w), DType.float32) := by
  simp [sigSpec]

lemma sigSpec_groupNorm_pos {g C n h w : ℕ} (hmod : C % g = 0)
    (hg : 0 < g) :
    sigSpec (LayerSpec.groupNorm g C) ((n, C, h, w), DType.float32) =
      some ((n, C, h, w), DType.float32) := by
  simp [sigSpec, hmod, hg]

lemma sigSpec_relu (s : Sig) : sigSpec LayerSpec.relu s = some s := rfl

lemma sigSpec_dropout (p : ℚ) (s : Sig) :
    sigSpec (LayerSpec.dropout p) s = some s := rfl

lemma sigSpec_logSoftmax (s : Sig) :
    sigSpec LayerSpec.logSoftmaxDim1 s = some s := rfl

lemma sigSpec_maxPool_pos {k s n c h w : ℕ} {dt : DType} (hk : 0 < k)
    (hs : 0 < s) (hh : k ≤ h) (hw : k ≤ w) :
    sigSpec (LayerSpec.maxPool k s) ((n, c, h, w), dt) =
      some ((n, c, (h - k) / s + 1, (w - k) / s + 1), dt) := by
  simp [sigSpec, hk, hs, hh, hw]

lemma sigSpec_avgPool_pos {k n c h w : ℕ} {dt : DType} (hk : 0 < k)
    (hh : k ≤ h) (hw : k ≤ w) :
    sigSpec (LayerSpec.avgPool k) ((n, c, h, w), dt) =
      some ((n, c, (h - k) / k + 1, (w - k) / k + 1), dt) := by
  simp [sigSpec, hk, hh, hw]

lemma sigSpec_adaptive_pos {n c h w : ℕ} {dt : DType} (hh : 0 < h)
    (hw : 0 < w) :
    sigSpec LayerSpec.adaptiveAvgPool1 ((n, c, h, w), dt) =
      some ((n, c, 1, 1), dt) := by
  simp [sigSpec, hh, hw]

lemma sigSpec_view10_pos {n c h w : ℕ} {dt : DType}
    (hd : 10 ∣ n * c * h * w) :
    sigSpec LayerSpec.view10 ((n, c, h, w), dt) =
      some ((n * c * h * w / 10, 10, 1, 1), dt) := by
  simp [sigSpec, hd]

/-- Every layer other than the `view` reshape preserves the batch
dimension. -/
lemma sigSpec_n_preserved {s : LayerSpec} (hne : s ≠ LayerSpec.view10)
    {g g' : Sig} (h : sigSpec s g = some g') : g'.1.1 = g.1.1 := by
  obtain ⟨⟨n, c, h', w⟩, dt⟩ := g
  cases s <;> simp only [sigSpec] at h <;>
    first
      | (exact absurd rfl hne)
      | (rw [Option.some.injEq] at h; rw [← h])
      | (split at h <;>
          [(rw [Option.some.injEq] at h; rw [← h]);
            exact absurd h (by simp)])

/-- A run of a `view`-free sequence of layers preserves the batch
dimension. -/
lemma runNetSig_n_preserved {specs : List LayerSpec}
    (hnv : LayerSpec.view10 ∉ specs) {g g' : Sig}
    (h : runNetSig specs g = some g') : g'.1.1 = g.1.1 := by
  induction specs generalizing g with
  | nil =>
      rw [runNetSig, Option.some.injEq] at h
      rw [← h]
  | cons s rest ih =>
      rw [runNetSig_cons] at h
      obtain ⟨m, hm, hrest⟩ := Option.bind_eq_some.mp h
      have h1 : m.1.1 = g.1.1 :=
        sigSpec_n_preserved (fun he => hnv (he ▸ List.mem_cons_self s rest))
          hm
      have h2 := ih (fun hmem => hnv (List.mem_cons_of_mem s hmem)) hrest
      rw [h2, h1]

/-- Shape run of one `ConvLayer` (3x3 conv, padding 1, any of the three
normalizers, ReLU, Dropout): spatial size preserved, channels become
`outC`. -/
lemma ConvLayer_sig (nm : NormalizationMethod) {inC outC n h w : ℕ}
    (h8 : outC % NUM_GROUPS = 0) (hh : 1 ≤ h) (hw : 1 ≤ w) :
    runNetSig (ConvLayer inC outC 1 nm) ((n, inC, h, w), DType.float32) =
      some ((n, outC, h, w), DType.float32) := by
  have e1 : h + 2 * 1 + 1 - 3 = h := by omega
  have e2 : w + 2 * 1 + 1 - 3 = w := by omega
  have h3 : (3 : ℕ) ≤ h + 2 * 1 := by omega
  have w3 : (3 : ℕ) ≤ w + 2 * 1 := by omega
  cases nm with
  | BATCH =>
      rw [ConvLayer, normalizerSpec]
      rw [runNetSig_cons, sigSpec_conv_pos rfl rfl h3 w3, Option.some_bind,
        e1, e2]
      rw [runNetSig_cons, sigSpec_batchNorm_pos, Option.some_bind]
      rw [runNetSig_cons, sigSpec_relu, Option.some_bind]
      rw [runNetSig_cons, sigSpec_dropout, Option.some_bind]
      rfl
  | LAYER =>
      rw [ConvLayer, normalizerSpec]
      rw [runNetSig_cons, sigSpec_conv_pos rfl rfl h3 w3, Option.some_bind,
        e1, e2]
      rw [runNetSig_cons,
        sigSpec_groupNorm_pos (show outC % 1 = 0 by omega) (by decide),
        Option.some_bind]
      rw [runNetSig_cons, sigSpec_relu, Option.some_bind]
      rw [runNetSig_cons, sigSpec_dropout, Option.some_bind]
      rfl
  | GROUP =>
      rw [ConvLayer, normalizerSpec]
      rw [runNetSig_cons, sigSpec_conv_pos rfl rfl h3 w3, Option.some_bind,
        e1, e2]
      rw [runNetSig_cons, sigSpec_groupNorm_pos h8 (by decide),
        Option.some_bind]
      rw [runNetSig_cons, sigSpec_relu, Option.some_bind]
      rw [runNetSig_cons, sigSpec_dropout, Option.some_bind]
      rfl

/-- Shape run of one `TransBlock` (1x1 conv then 2x2/2 max-pool): spatial
size halves (floor), channels become `outC`. -/
lemma TransBlock_sig {inC outC n h w : ℕ} (hh : 2 ≤ h) (hw : 2 ≤ w) :
    runNetSig (TransBlock inC outC) ((n, inC, h, w), DType.float32) =
      some ((n, outC, h / 2, w / 2), DType.float32) := by
  have e1 : h + 2 * 0 + 1 - 1 = h := by omega
  have e2 : w + 2 * 0 + 1 - 1 = w := by omega
  have e3 : (h - 2) / 2 + 1 = h / 2 := by omega
  have e4 : (w - 2) / 2 + 1 = w / 2 := by omega
  rw [TransBlock]
  rw [runNetSig_cons, sigSpec_conv_pos rfl rfl (by omega) (by omega),
    Option.some_bind, e1, e2]
  rw [runNetSig_cons, sigSpec_maxPool_pos (by decide) (by decide) hh hw,
    Option.some_bind, e3, e4]
  rfl

/-- Shape run of the declared blocks of `Model` on a float32 input
`(N, 3, H, W)` with `H, W ≥ 8`: the blocks end in a `(N, 16, 1, 1)` gap
output followed by the 1x1 `out` conv, giving `(N, 10, 1, 1)`. -/
lemma Model_blocks_sig (nm : NormalizationMethod) {N H W : ℕ}
    (hH : 8 ≤ H) (hW : 8 ≤ W) :
    runNetSig (Model_blocks nm) ((N, 3, H, W), DType.float32) =
      some ((N, 10, 1, 1), DType.float32) := by
  rw [show Model_blocks nm =
    ConvLayer 3 16 1 nm ++ (ConvLayer 16 32 1 nm ++ (TransBlock 32 16 ++
      (ConvLayer 16 16 1 nm ++ (ConvLayer 16 16 1 nm ++
        (ConvLayer 16 32 1 nm ++ (TransBlock 32 16 ++
          (ConvLayer 16 16 1 nm ++ (ConvLayer 16 16 1 nm ++
            (ConvLayer 16 32 1 nm ++ (TransBlock 32 16 ++
              (Model_gap ++ Model_out)))))))))))
    from by
      simp [Model_blocks, Model_conv_block1, Model_trans_block1,
        Model_conv_block2, Model_trans_block2, Model_conv_block3,
        Model_trans_block3, List.append_assoc]]
  rw [runNetSig_append,
    ConvLayer_sig nm (by decide) (by omega) (by omega), Option.some_bind]
  rw [runNetSig_append,
    ConvLayer_sig nm (by decide) (by omega) (by omega), Option.some_bind]
  rw [runNetSig_append, TransBlock_sig (by omega) (by omega),
    Option.some_bind]
  rw [runNetSig_append,
    ConvLayer_sig nm (by decide) (by omega) (by omega), Option.some_bind]
  rw [runNetSig_append,
    ConvLayer_sig nm (by decide) (by omega) (by omega), Option.some_bind]
  rw [runNetSig_append,
    ConvLayer_sig nm (by decide) (by omega) (by omega), Option.some_bind]
  rw [runNetSig_append, TransBlock_sig (by omega) (by omega),
    Option.some_bind]
  rw [runNetSig_append,
    ConvLayer_sig nm (by decide) (by omega) (by omega), Option.some_bind]
  rw [runNetSig_append,
    ConvLayer_sig nm (by decide) (by omega) (by omega), Option.some_bind]
  rw [runNetSig_append,
    ConvLayer_sig nm (by decide) (by omega) (by omega), Option.some_bind]
  rw [runNetSig_append, TransBlock_sig (by omega) (by omega),
    Option.some_bind]
  rw [runNetSig_append]
  rw [show runNetSig Model_gap ((N, 16, H / 2 / 2 / 2, W / 2 / 2 / 2),
      DType.float32) =
    some ((N, 16, 1, 1), DType.float32) from by
      rw [Model_gap, runNetSig_cons,
        sigSpec_adaptive_pos (by omega) (by omega), Option.some_bind]
      rfl]
  rw [Option.some_bind]
  rw [Model_out, runNetSig_cons, sigSpec_conv_pos rfl rfl (by omega)
    (by omega), Option.some_bind]
  rfl

/-- Shape run of the whole `Model.forward` pipeline on a float32 input
`(N, 3, H, W)` with `H, W ≥ 8`. -/
lemma Model_full_sig (nm : NormalizationMethod) {N H W : ℕ}
    (hH : 8 ≤ H) (hW : 8 ≤ W) :
    runNetSig (Model_blocks nm ++
        [LayerSpec.view10, LayerSpec.logSoftmaxDim1])
      ((N, 3, H, W), DType.float32) =
      some ((N, 10, 1, 1), DType.float32) := by
  rw [runNetSig_append, Model_blocks_sig nm hH hW, Option.some_bind,
    runNetSig_cons, sigSpec_view10_pos ⟨N, by ring⟩, Option.some_bind,
    runNetSig_cons, sigSpec_logSoftmax, Option.some_bind, runNetSig]
  rw [show N * 10 * 1 * 1 / 10 = N from by omega]

lemma sigSpec_adaptive_inv {g g' : Sig}
    (h : sigSpec LayerSpec.adaptiveAvgPool1 g = some g') :
    g' = ((g.1.1, g.1.2.1, 1, 1), g.2) := by
  obtain ⟨⟨n, c, h', w⟩, dt⟩ := g
  simp only [sigSpec] at h
  split at h
  · rw [Option.some.injEq] at h
    rw [← h]
  · exact absurd h (by simp)

lemma sigSpec_conv_inv {inC outC kh kw pad : ℕ} {g g' : Sig}
    (h : sigSpec (LayerSpec.conv inC outC kh kw pad) g = some g') :
    g' = ((g.1.1, outC, g.1.2.2.1 + 2 * pad + 1 - kh,
      g.1.2.2.2 + 2 * pad + 1 - kw), DType.float32) := by
  obtain ⟨⟨n, c, h', w⟩, dt⟩ := g
  simp only [sigSpec] at h
  split at h
  · rw [Option.some.injEq] at h
    rw [← h]
  · exact absurd h (by simp)

lemma Model_blocks_decomp (nm : NormalizationMethod) :
    Model_blocks nm = Model_pre nm ++ (Model_gap ++ Model_out) := by
  simp [Model_blocks, Model_pre, List.append_assoc]

lemma Model_pre_noview (nm : NormalizationMethod) :
    LayerSpec.view10 ∉ Model_pre nm := by
  cases nm <;> decide

/-- However `Model`'s blocks succeed, the result is a `(N, 10, 1, 1)`
signature with the input's batch dimension. -/
lemma Model_blocks_sig_inv (nm : NormalizationMethod) {g t : Sig}
    (h : runNetSig (Model_blocks nm) g = some t) :
    ∃ dt, t = ((g.1.1, 10, 1, 1), dt) := by
  rw [Model_blocks_decomp, runNetSig_append] at h
  obtain ⟨m1, h1, h2⟩ := Option.bind_eq_some.mp h
  have hm1 : m1.1.1 = g.1.1 := runNetSig_n_preserved (Model_pre_noview nm) h1
  rw [show Model_gap ++ Model_out =
    [LayerSpec.adaptiveAvgPool1, LayerSpec.conv 16 10 1 1 0] from rfl] at h2
  rw [runNetSig_cons] at h2
  obtain ⟨m2, hm2, h3⟩ := Option.bind_eq_some.mp h2
  have em2 := sigSpec_adaptive_inv hm2
  rw [runNetSig_cons] at h3
  obtain ⟨m3, hm3, h4⟩ := Option.bind_eq_some.mp h3
  have em3 := sigSpec_conv_inv hm3
  rw [runNetSig, Option.some.injEq] at h4
  refine ⟨DType.float32, ?_⟩
  rw [← h4, em3, em2]
  simp [hm1]

/-- Whatever the input, a successful `Model.forward` keeps the batch
dimension. -/
lemma Model_forward_n {nm : NormalizationMethod} {θ : ℕ → ℝ}
    {x y : Tensor4} (h : Model_forward nm θ x = some y) : y.n = x.n := by
  rw [Model_forward_eq] at h
  have hs := runNet_sig (Model_blocks nm ++
    [LayerSpec.view10, LayerSpec.logSoftmaxDim1]) θ x
  rw [h] at hs
  have hs' : runNetSig (Model_blocks nm ++
      [LayerSpec.view10, LayerSpec.logSoftmaxDim1]) x.sig =
    some y.sig := by
    rw [← hs]
    rfl
  rw [runNetSig_append] at hs'
  obtain ⟨t, hbl, htail⟩ := Option.bind_eq_some.mp hs'
  obtain ⟨dt, ht⟩ := Model_blocks_sig_inv nm hbl
  subst ht
  rw [runNetSig_cons, sigSpec_view10_pos ⟨x.sig.1.1, by ring⟩,
    Option.some_bind, runNetSig_cons, sigSpec_logSoftmax,
    Option.some_bind, runNetSig, Option.some.injEq] at htail
  have hn : y.sig.1.1 = x.sig.1.1 * 10 * 1 * 1 / 10 := by
    rw [← htail]
  have : y.sig.1.1 = x.sig.1.1 := by
    rw [hn]
    omega
  exact this

lemma lt_radix {x X y Y : ℕ} (hx : x < X) (hy : y < Y) :
    x * Y + y < X * Y := by
  calc x * Y + y < x * Y + Y := by omega
    _ = (x + 1) * Y := by ring
    _ ≤ X * Y := Nat.mul_le_mul_right Y hx

/-- A layer reads only the first `paramCount` scalars of its parameter
slice. -/
lemma apply_theta_congr (s : LayerSpec) {θ1 θ2 : ℕ → ℝ} (x : Tensor4)
    (h : ∀ i < s.paramCount, θ1 i = θ2 i) :
    s.apply θ1 x = s.apply θ2 x := by
  cases s with
  | conv inC outC kh kw pad =>
      simp only [LayerSpec.apply]
      split
      · congr 1
        simp only [Tensor4.mk.injEq]
        refine ⟨trivial, trivial, trivial, trivial, trivial, ?_⟩
        funext nn o i j
        unfold guard4
        split
        case isTrue hin =>
          dsimp only
          refine Finset.sum_congr rfl fun ci hci => ?_
          refine Finset.sum_congr rfl fun a ha => ?_
          refine Finset.sum_congr rfl fun b hb => ?_
          have hci' : ci < inC := Finset.mem_range.mp hci
          have ha' : a < kh := Finset.mem_range.mp ha
          have hb' : b < kw := Finset.mem_range.mp hb
          have b1 : o * inC + ci < outC * inC := lt_radix hin.2.1 hci'
          have b2 : (o * inC + ci) * kh + a < outC * inC * kh :=
            lt_radix b1 ha'
          have b3 : ((o * inC + ci) * kh + a) * kw + b <
              outC * inC * kh * kw := lt_radix b2 hb'
          rw [h _ b3]
        case isFalse => rfl
      · rfl
  | batchNorm C =>
      simp only [LayerSpec.apply]
      split
      · congr 1
        simp only [Tensor4.mk.injEq]
        refine ⟨trivial, trivial, trivial, trivial, trivial, ?_⟩
        funext nn cc i j
        unfold guard4
        split
        case isTrue hin =>
          have hcc : cc < C := by
            have := hin.2.1
            omega
          dsimp only
          rw [h cc (by simp only [LayerSpec.paramCount]; omega),
            h (2 * C + cc) (by simp only [LayerSpec.paramCount]; omega),
            h (3 * C + cc) (by simp only [LayerSpec.paramCount]; omega),
            h (C + cc) (by simp only [LayerSpec.paramCount]; omega)]
        case isFalse => rfl
      · rfl
  | groupNorm g C =>
      simp only [LayerSpec.apply]
      split
      · congr 1
        simp only [Tensor4.mk.injEq]
        refine ⟨trivial, trivial, trivial, trivial, trivial, ?_⟩
        funext nn cc i j
        unfold guard4
        split
        case isTrue hin =>
          have hcc : cc < C := by
            have := hin.2.1
            omega
          dsimp only
          rw [h cc (by simp only [LayerSpec.paramCount]; omega),
            h (C + cc) (by simp only [LayerSpec.paramCount]; omega)]
        case isFalse => rfl
      · rfl
  | relu => rfl
  | dropout p => rfl
  | maxPool k s => rfl
  | avgPool k => rfl
  | adaptiveAvgPool1 => rfl
  | view10 => rfl
  | logSoftmaxDim1 => rfl

/-- A straight-line run reads only the first `netParamCount` scalars of
its parameter vector. -/
lemma runNet_theta_congr {specs : List LayerSpec} {θ1 θ2 : ℕ → ℝ}
    (x : Tensor4) (h : ∀ i < netParamCount specs, θ1 i = θ2 i) :
    runNet specs θ1 x = runNet specs θ2 x := by
  induction specs generalizing θ1 θ2 x with
  | nil => rfl
  | cons s rest ih =>
      rw [runNet, runNet, apply_theta_congr s x (fun i hi =>
        h i (by rw [netParamCount_cons]; omega))]
      cases happ : s.apply θ2 x with
      | none => rfl
      | some y =>
          simp only [Option.some_bind]
          exact ih y (fun i hi => by
            show θ1 (i + s.paramCount) = θ2 (i + s.paramCount)
            exact h (i + s.paramCount) (by rw [netParamCount_cons]; omega))

lemma runNet_pair (a b : LayerSpec) (θ : ℕ → ℝ) (z : Tensor4) :
    runNet [a, b] θ z =
      (a.apply θ z).bind (b.apply (shiftP θ a.paramCount)) := by
  simp only [runNet]
  cases a.apply θ z with
  | none => rfl
  | some u =>
      simp only [Option.some_bind]
      cases b.apply (shiftP θ a.paramCount) u <;> rfl

/-- C1: the spec claims that all failure modes are raised by the external
numerical library and that no constructor or helper of `model.py` raises
an error originating in the file.  The code contradicts this: the
constructors of `session_6_Model` and `Session_7_Model_1` evaluate
`nn.Dropout(dropout_value)` where `dropout_value` is bound nowhere in the
module, so both raise a `NameError` produced by the repository's own code,
not by the library. -/
theorem C1_repo_raised_NameError :
    session_6_Model_init =
      Except.error (PyError.nameError "dropout_value") ∧
    Session_7_Model_1_init =
      Except.error (PyError.nameError "dropout_value") :=
  ⟨rfl, rfl⟩

/-- C3: for every model variant, `forward` is exactly the straight-line
composition of its declared layer blocks in declaration order, followed by
`view(-1, 10)` and `log_softmax`; the layer sequence
`v.blocks ++ [view10, logSoftmaxDim1]` is a fixed list that does not
depend on the input tensor `x`, so the operations applied never depend on
the input values. -/
theorem C3_forward_is_composition :
    ∀ (v : Variant) (θ : ℕ → ℝ) (x : Tensor4),
      v.forward θ x =
        runNet (v.blocks ++ [LayerSpec.view10, LayerSpec.logSoftmaxDim1])
          θ x :=
  fun v θ x => Variant.forward_eq v θ x

/-- C7, counterexample to the claim as stated: `normalizer(GROUP, 12)`
does not return a module without raising — `nn.GroupNorm.__init__`
raises `ValueError` because `12` is not divisible by `NUM_GROUPS = 8`. -/
theorem C7_counterexample :
    normalizer NormalizationMethod.GROUP 12 =
      Except.error (PyError.libValueError
        "num_channels must be divisible by num_groups") ∧
    (normalizer NormalizationMethod.GROUP 12).isOk = false :=
  ⟨rfl, rfl⟩

/-- C7 (amended): `BATCH` yields `BatchNorm2d(out_channels)` and `LAYER`
yields `GroupNorm(1, out_channels)` without raising, for every
`out_channels`; `GROUP` yields `GroupNorm(NUM_GROUPS = 8, out_channels)`
without raising exactly when `8` divides `out_channels`, and otherwise
the library's `nn.GroupNorm.__init__` raises its divisibility
`ValueError`; `normalizer`'s own
`raise ValueError("Invalid NormalizationMethod")` branch is unreachable
for every `NormalizationMethod` value. -/
theorem C7_normalizer_behaviour :
    (∀ outC : ℕ, normalizer NormalizationMethod.BATCH outC =
      Except.ok (LayerSpec.batchNorm outC)) ∧
    (∀ outC : ℕ, normalizer NormalizationMethod.LAYER outC =
      Except.ok (LayerSpec.groupNorm 1 outC)) ∧
    (∀ outC : ℕ, outC % NUM_GROUPS = 0 →
      normalizer NormalizationMethod.GROUP outC =
        Except.ok (LayerSpec.groupNorm NUM_GROUPS outC)) ∧
    (∀ outC : ℕ, outC % NUM_GROUPS ≠ 0 →
      normalizer NormalizationMethod.GROUP outC =
        Except.error (PyError.libValueError
          "num_channels must be divisible by num_groups")) ∧
    (∀ (m : NormalizationMethod) (outC : ℕ),
      normalizer m outC ≠
        Except.error (PyError.valueError "Invalid NormalizationMethod")) := by
  refine ⟨fun outC => rfl, fun outC => ?_, fun outC h => ?_,
    fun outC h => ?_, fun m outC => ?_⟩
  · simp [normalizer, GroupNorm_init, Nat.mod_one]
  · simp [normalizer, GroupNorm_init, h]
  · simp [normalizer, GroupNorm_init, h]
  · cases m with
    | BATCH => simp [normalizer]
    | LAYER => simp [normalizer, GroupNorm_init, Nat.mod_one]
    | GROUP =>
        show ¬(GroupNorm_init NUM_GROUPS outC =
          Except.error (PyError.valueError "Invalid NormalizationMethod"))
        unfold GroupNorm_init
        split <;> simp

/-- C7 witness: concrete instances of the amended claim's two conditional
conjuncts — `out_channels = 16` (divisible by 8) constructs a
`GroupNorm(8, 16)`, `out_channels = 12` raises the library's
divisibility `ValueError`. -/
theorem C7_witness :
    16 % NUM_GROUPS = 0 ∧
    normalizer NormalizationMethod.GROUP 16 =
      Except.ok (LayerSpec.groupNorm NUM_GROUPS 16) ∧
    12 % NUM_GROUPS ≠ 0 ∧
    normalizer NormalizationMethod.GROUP 12 =
      Except.error (PyError.libValueError
        "num_channels must be divisible by num_groups") :=
  ⟨by decide, C7_normalizer_behaviour.2.2.1 16 (by decide), by decide,
    C7_normalizer_behaviour.2.2.2.1 12 (by decide)⟩

/-- C8: constructing `session_6_Model()` or `Session_7_Model_1()` always
raises `NameError` (the name `dropout_value` is defined nowhere in the
module), while `Model`, `Session_7_Model_2` and `Session_7_Model_3`
construct successfully. -/
theorem C8_constructor_outcomes :
    session_6_Model_init =
      Except.error (PyError.nameError "dropout_value") ∧
    Session_7_Model_1_init =
      Except.error (PyError.nameError "dropout_value") ∧
    (∀ nm : NormalizationMethod,
      Model_init nm = Except.ok (Model_blocks nm)) ∧
    Session_7_Model_2_init = Except.ok Session_7_Model_2_blocks ∧
    Session_7_Model_3_init = Except.ok Session_7_Model_3_blocks := by
  refine ⟨rfl, rfl, fun nm => ?_, rfl, rfl⟩
  cases nm <;> rfl

/-- C9: `Session_7_Model_2` and `Session_7_Model_3` define the same
architecture: their declared layer blocks are equal, and with equal
parameter values their `forward` methods agree on every input tensor. -/
theorem C9_models_2_3_equal :
    Session_7_Model_2_blocks = Session_7_Model_3_blocks ∧
    (∀ (θ : ℕ → ℝ) (x : Tensor4),
      Session_7_Model_2_forward θ x = Session_7_Model_3_forward θ x) :=
  ⟨rfl, fun _ _ => rfl⟩

/-- C2, counterexample to the claim as stated: `Session_7_Model_2.forward`
succeeds on a float32 input of shape `(1, 1, 30, 30)` (batch size
`N = 1`), but the result has shape `(4, 10)`, not `(1, 10)`: the final
feature map is `(1, 10, 2, 2)` and `x.view(-1, 10)` folds the spatial
positions into the batch dimension. -/
theorem C2_counterexample :
    (Session_7_Model_2_forward (fun _ => 0)
      ⟨1, 1, 30, 30, DType.float32, fun _ _ _ _ => 0⟩).map Tensor4.sig =
      some ((4, 10, 1, 1), DType.float32) := by
  rw [Session_7_Model_2_forward_eq, runNet_sig]
  rfl

/-- C2 (amended): for every model variant, whenever `forward` succeeds the
result is a class-log-probability tensor with 10 columns (a 2-D `(M, 10)`
tensor, encoded with trailing dimensions 1): every entry is nonpositive
and each row's exponentials sum to 1; for `Model` (whose gap pools to
1x1) the row count `M` equals the input batch size `N`, while for the
other variants `M` can differ from `N`. -/
theorem C2_output_is_log_probability :
    (∀ (v : Variant) (θ : ℕ → ℝ) (x y : Tensor4),
      v.forward θ x = some y →
      y.c = 10 ∧ y.h = 1 ∧ y.w = 1 ∧
        (∀ nn cc, cc < 10 → y.data nn cc 0 0 ≤ 0) ∧
        (∀ nn, ∑ cc ∈ Finset.range 10, Real.exp (y.data nn cc 0 0) = 1)) ∧
    (∀ (nm : NormalizationMethod) (θ : ℕ → ℝ) (x y : Tensor4),
      Model_forward nm θ x = some y → y.n = x.n) := by
  constructor
  · intro v θ x y h
    rw [Variant.forward_eq, runNet_append] at h
    obtain ⟨z, hz, htail⟩ := Option.bind_eq_some.mp h
    rw [runNet_pair] at htail
    exact view_logSoftmax_props htail
  · intro nm θ x y h
    exact Model_forward_n h

/-- C2 witness: a successful concrete forward call (`Model`, batch
normalization, zero parameters, zero input of shape `(1, 3, 8, 8)`)
realizing the amended claim. -/
theorem C2_witness :
    ∃ y, Variant.forward (Variant.model NormalizationMethod.BATCH)
        (fun _ => 0) ⟨1, 3, 8, 8, DType.float32, fun _ _ _ _ => 0⟩ =
        some y ∧
      (y.c = 10 ∧ y.h = 1 ∧ y.w = 1 ∧
        (∀ nn cc, cc < 10 → y.data nn cc 0 0 ≤ 0) ∧
        (∀ nn, ∑ cc ∈ Finset.range 10, Real.exp (y.data nn cc 0 0) = 1)) ∧
      y.n = 1 := by
  obtain ⟨y, hy, hsig⟩ :=
    @runNet_total_of_sig
      (Model_blocks NormalizationMethod.BATCH ++
        [LayerSpec.view10, LayerSpec.logSoftmaxDim1])
      ⟨1, 3, 8, 8, DType.float32, fun _ _ _ _ => 0⟩
      ((1, 10, 1, 1), DType.float32)
      (fun _ => 0)
      (Model_full_sig NormalizationMethod.BATCH (by norm_num) (by norm_num))
  have hv : Variant.forward (Variant.model NormalizationMethod.BATCH) =
      Model_forward NormalizationMethod.BATCH := rfl
  have hfwd' : Model_forward NormalizationMethod.BATCH (fun _ => 0)
      ⟨1, 3, 8, 8, DType.float32, fun _ _ _ _ => 0⟩ = some y := by
    rw [Model_forward_eq]
    exact hy
  have hfwd : Variant.forward (Variant.model NormalizationMethod.BATCH)
      (fun _ => 0) ⟨1, 3, 8, 8, DType.float32, fun _ _ _ _ => 0⟩ =
      some y := by
    rw [hv]
    exact hfwd'
  refine ⟨y, hfwd, C2_output_is_log_probability.1 _ _ _ _ hfwd, ?_⟩
  exact C2_output_is_log_probability.2 NormalizationMethod.BATCH _ _ _ hfwd'

/-- C4: on every float32 input of shape `(N, 3, H, W)` with `N ≥ 1` and
`H, W ≥ 8`, `Model.forward` succeeds (every layer's shape requirement is
met: the 3x3/padding-1 convolutions preserve spatial size, each
`TransBlock` max-pool halves it and the three halvings stay at least 1),
and the result has shape `(N, 10)`. -/
theorem C4_model_shape_safe :
    ∀ (nm : NormalizationMethod) (θ : ℕ → ℝ) (N H W : ℕ) (x : Tensor4),
      1 ≤ N → 8 ≤ H → 8 ≤ W →
      x.sig = ((N, 3, H, W), DType.float32) →
      ∃ y, Model_forward nm θ x = some y ∧
        y.sig = ((N, 10, 1, 1), DType.float32) := by
  intro nm θ N H W x hN hH hW hsig
  have hsig' : runNetSig (Model_blocks nm ++
      [LayerSpec.view10, LayerSpec.logSoftmaxDim1]) x.sig =
      some ((N, 10, 1, 1), DType.float32) := by
    rw [hsig]
    exact Model_full_sig nm hH hW
  obtain ⟨y, hy, hys⟩ := runNet_total_of_sig θ hsig'
  refine ⟨y, ?_, hys⟩
  rw [Model_forward_eq]
  exact hy

/-- C4 witness: the concrete instance `N = 1`, `H = W = 8`, zero input,
zero parameters, batch normalization. -/
theorem C4_witness :
    ∃ y, Model_forward NormalizationMethod.BATCH (fun _ => 0)
        ⟨1, 3, 8, 8, DType.float32, fun _ _ _ _ => 0⟩ = some y ∧
      y.sig = ((1, 10, 1, 1), DType.float32) :=
  C4_model_shape_safe NormalizationMethod.BATCH (fun _ => 0) 1 8 8
    ⟨1, 3, 8, 8, DType.float32, fun _ _ _ _ => 0⟩
    (by norm_num) (by norm_num) (by norm_num) rfl

/-- C5: the output signature (shape and dtype) of any straight-line layer
run — in particular of every variant's `forward` — is a function of the
input tensor's shape and dtype alone: two inputs with equal signatures
produce outputs with equal signatures (both failing, or both succeeding
with the same shape and dtype), regardless of the tensor values and for
the same parameters. -/
theorem C5_sig_depends_only_on_sig :
    (∀ (specs : List LayerSpec) (θ : ℕ → ℝ) (x1 x2 : Tensor4),
      x1.sig = x2.sig →
      (runNet specs θ x1).map Tensor4.sig =
        (runNet specs θ x2).map Tensor4.sig) ∧
    (∀ (v : Variant) (θ : ℕ → ℝ) (x1 x2 : Tensor4),
      x1.sig = x2.sig →
      (v.forward θ x1).map Tensor4.sig =
        (v.forward θ x2).map Tensor4.sig) := by
  constructor
  · intro specs θ x1 x2 h
    rw [runNet_sig, runNet_sig, h]
  · intro v θ x1 x2 h
    rw [Variant.forward_eq, Variant.forward_eq, runNet_sig, runNet_sig, h]

/-- C5 witness: two value-wise different inputs of equal signature
(all-zero and all-one `(1, 1, 28, 28)` float32 tensors) to
`Session_7_Model_2.forward` yield outputs of equal signature. -/
theorem C5_witness :
    (Variant.forward Variant.s7m2 (fun _ => 0)
        ⟨1, 1, 28, 28, DType.float32, fun _ _ _ _ => 0⟩).map Tensor4.sig =
      (Variant.forward Variant.s7m2 (fun _ => 0)
        ⟨1, 1, 28, 28, DType.float32, fun _ _ _ _ => 1⟩).map Tensor4.sig :=
  C5_sig_depends_only_on_sig.2 Variant.s7m2 (fun _ => 0)
    ⟨1, 1, 28, 28, DType.float32, fun _ _ _ _ => 0⟩
    ⟨1, 1, 28, 28, DType.float32, fun _ _ _ _ => 1⟩ rfl

lemma allocNet_mem_lo (specs : List LayerSpec) (f : ℕ → ℝ) (s : Store)
    {i : ℕ} (h : i < s.next) :
    (allocNet specs f s).2.mem i = s.mem i := by
  show (if s.next ≤ i ∧ i < s.next + netParamCount specs then
    f (i - s.next) else s.mem i) = s.mem i
  rw [if_neg (by omega)]

lemma setParam_mem_ne (inst : Instance) (i : ℕ) (v : ℝ) (s : Store)
    {j : ℕ} (h : j ≠ inst.base + i) :
    (inst.setParam i v s).mem j = s.mem j := by
  unfold Instance.setParam
  split
  · show (if j = inst.base + i then v else s.mem j) = s.mem j
    rw [if_neg h]
  · rfl

/-- C6: two module instances share no mutable state beyond their own
parameter regions: constructing a second instance allocates a fresh
region and leaves every parameter of the first unchanged, and mutating a
parameter of the second (or running its read-only forward) leaves every
parameter of the first — and hence the first's forward behaviour —
unchanged. -/
theorem C6_instances_disjoint :
    ∀ (bs1 bs2 : List LayerSpec) (f1 f2 : ℕ → ℝ) (s0 : Store)
      (inst1 : Instance) (s1 : Store) (inst2 : Instance) (s2 : Store)
      (i j : ℕ) (v : ℝ) (x : Tensor4),
      allocNet bs1 f1 s0 = (inst1, s1) →
      allocNet bs2 f2 s1 = (inst2, s2) →
      j < netParamCount bs1 →
      (s2.mem (inst1.base + j) = s1.mem (inst1.base + j) ∧
        (inst2.setParam i v s2).mem (inst1.base + j) =
          s2.mem (inst1.base + j) ∧
        inst1.forwardIn (inst2.setParam i v s2) x =
          inst1.forwardIn s2 x ∧
        inst1.forwardIn s2 x = inst1.forwardIn s1 x) := by
  intro bs1 bs2 f1 f2 s0 inst1 s1 inst2 s2 i j v x h1 h2 hj
  obtain rfl : inst1 = ⟨s0.next, bs1⟩ := (congrArg Prod.fst h1).symm
  obtain rfl : s1 = (allocNet bs1 f1 s0).2 := (congrArg Prod.snd h1).symm
  obtain rfl : inst2 = ⟨(allocNet bs1 f1 s0).2.next, bs2⟩ :=
    (congrArg Prod.fst h2).symm
  obtain rfl : s2 = (allocNet bs2 f2 (allocNet bs1 f1 s0).2).2 :=
    (congrArg Prod.snd h2).symm
  have hA1next : (allocNet bs1 f1 s0).2.next =
      s0.next + netParamCount bs1 := rfl
  have hbase : ∀ j', j' < netParamCount bs1 → s0.next + j' <
      (allocNet bs1 f1 s0).2.next := by
    intro j' hj'
    rw [hA1next]
    omega
  have key1 : ∀ j', j' < netParamCount bs1 →
      (allocNet bs2 f2 (allocNet bs1 f1 s0).2).2.mem (s0.next + j') =
        (allocNet bs1 f1 s0).2.mem (s0.next + j') := by
    intro j' hj'
    exact allocNet_mem_lo bs2 f2 _ (hbase j' hj')
  have key2 : ∀ j', j' < netParamCount bs1 →
      (Instance.setParam ⟨(allocNet bs1 f1 s0).2.next, bs2⟩ i v
          (allocNet bs2 f2 (allocNet bs1 f1 s0).2).2).mem (s0.next + j') =
        (allocNet bs2 f2 (allocNet bs1 f1 s0).2).2.mem (s0.next + j') := by
    intro j' hj'
    refine setParam_mem_ne _ _ _ _ ?_
    show s0.next + j' ≠ (allocNet bs1 f1 s0).2.next + i
    have := hbase j' hj'
    omega
  refine ⟨key1 j hj, key2 j hj, ?_, ?_⟩
  · exact runNet_theta_congr x (fun i' hi' => key2 i' hi')
  · exact runNet_theta_congr x (fun i' hi' => key1 i' hi')

/-- C6 witness: a concrete `Model` instance followed by a concrete
`Session_7_Model_2` instance; overwriting parameter 0 of the second (or
running its forward) leaves parameter 0 and the forward behaviour of the
first unchanged. -/
theorem C6_witness :
    ∃ (p1 p2 : Instance × Store),
      allocNet (Model_blocks NormalizationMethod.BATCH) (fun _ => 0)
        ⟨fun _ => 0, 0⟩ = p1 ∧
      allocNet Session_7_Model_2_blocks (fun _ => 1) p1.2 = p2 ∧
      0 < netParamCount (Model_blocks NormalizationMethod.BATCH) ∧
      p2.2.mem (p1.1.base + 0) = p1.2.mem (p1.1.base + 0) ∧
      (p2.1.setParam 0 1 p2.2).mem (p1.1.base + 0) =
        p2.2.mem (p1.1.base + 0) ∧
      p1.1.forwardIn (p2.1.setParam 0 1 p2.2)
          ⟨1, 3, 8, 8, DType.float32, fun _ _ _ _ => 0⟩ =
        p1.1.forwardIn p2.2
          ⟨1, 3, 8, 8, DType.float32, fun _ _ _ _ => 0⟩ ∧
      p1.1.forwardIn p2.2 ⟨1, 3, 8, 8, DType.float32, fun _ _ _ _ => 0⟩ =
        p1.1.forwardIn p1.2
          ⟨1, 3, 8, 8, DType.float32, fun _ _ _ _ => 0⟩ := by
  have h := C6_instances_disjoint (Model_blocks NormalizationMethod.BATCH)
    Session_7_Model_2_blocks (fun _ => 0) (fun _ => 1) ⟨fun _ => 0, 0⟩
    (allocNet (Model_blocks NormalizationMethod.BATCH) (fun _ => 0)
      ⟨fun _ => 0, 0⟩).1
    (allocNet (Model_blocks NormalizationMethod.BATCH) (fun _ => 0)
      ⟨fun _ => 0, 0⟩).2
    (allocNet Session_7_Model_2_blocks (fun _ => 1)
      (allocNet (Model_blocks NormalizationMethod.BATCH) (fun _ => 0)
        ⟨fun _ => 0, 0⟩).2).1
    (allocNet Session_7_Model_2_blocks (fun _ => 1)
      (allocNet (Model_blocks NormalizationMethod.BATCH) (fun _ => 0)
        ⟨fun _ => 0, 0⟩).2).2
    0 0 1 ⟨1, 3, 8, 8, DType.float32, fun _ _ _ _ => 0⟩ rfl rfl
    (by decide)
  exact ⟨_, _, rfl, rfl, by decide, h.1, h.2.1, h.2.2.1, h.2.2.2⟩

end ModelPy
